import Mathlib

/-!
Verification model of the kids-book generation pipeline.

The definitions below are a shallow embedding of the backend code of the
picture-book generator:

* backend/app/services/retry_helper.py   (retry_on_failure decorator)
* backend/app/services/ai_service.py     (generate_story result parsing,
  generate_image, generate_book_images)
* backend/app/services/book_tasks.py     (generate_book_content_task,
  regenerate_page_image_task)
* backend/app/services/book_service.py   (the same orchestration logic)
* backend/app/models/database.py         (BookStatus, PictureBook, BookPage rows)
* backend/app/api/routes.py              (cancel_task)

External effects (the two generative API calls, database commits) are
modelled by oracles supplied in an environment record: each call either
returns a value or raises, and each commit either durably applies the
session state or fails.  The control flow of the Python source is
reproduced statement by statement.
-/

namespace KidsBook

/-- Exceptions of the Python code that the pipeline can observe.
APICallError mirrors retry_helper.APICallError (message plus optional
HTTP status code); generic stands for any other Exception subclass. -/
inductive PyExc where
  | apiCallError (message : String) (statusCode : Option Nat)
  | generic (message : String)
deriving DecidableEq

/-- Message carried by an exception (str(e) in the handlers). -/
def excMessage : PyExc → String
  | .apiCallError m _ => m
  | .generic m => m

/-! ## Retrying Content Client: retry_helper.retry_on_failure

The decorator body (retry_helper.py lines 32-62) is

    for attempt in range(max_retries + 1):
        try:
            if attempt > 0:
                await asyncio.sleep(current_delay)
                current_delay *= backoff_factor
            result = await func(*args, **kwargs)
            return result
        except exceptions as e:
            last_exception = e
            ...
    raise last_exception

It is embedded as a function over an oracle f that gives the outcome of
the wrapped function at each attempt index.  The outcome records the
returned value or propagated exception, the number of invocations of the
wrapped function, and the total programmed asyncio.sleep time. -/
structure RetryOutcome (A : Type) where
  result : Except PyExc A
  calls : Nat
  totalSleep : Rat

/-- Retry iterations after the first call: one iteration per remaining
retry; each sleeps the current delay, multiplies it by the backoff
factor, then invokes the wrapped function once more.  An exception not
matched by the catches predicate propagates immediately; when the
retries are exhausted the last exception is raised. -/
def retryRest {A : Type} (catches : PyExc → Bool) (f : Nat → Except PyExc A)
    (backoff_factor : Rat) :
    Nat → Nat → Rat → Rat → Nat → PyExc → RetryOutcome A
  | 0, _, _, sleepAcc, calls, lastExc => ⟨.error lastExc, calls, sleepAcc⟩
  | retriesLeft + 1, attempt, currentDelay, sleepAcc, calls, _ =>
    match f attempt with
    | .ok a => ⟨.ok a, calls + 1, sleepAcc + currentDelay⟩
    | .error e =>
      if catches e then
        retryRest catches f backoff_factor retriesLeft (attempt + 1)
          (currentDelay * backoff_factor) (sleepAcc + currentDelay) (calls + 1) e
      else ⟨.error e, calls + 1, sleepAcc + currentDelay⟩

/-- Embedding of retry_on_failure(max_retries, delay, backoff_factor,
exceptions) applied to a wrapped function whose attempt-indexed outcomes
are given by f.  Attempt 0 runs without sleeping; afterwards retryRest
performs up to max_retries further attempts. -/
def retry_on_failure {A : Type} (max_retries : Nat) (delay : Rat)
    (backoff_factor : Rat) (catches : PyExc → Bool)
    (f : Nat → Except PyExc A) : RetryOutcome A :=
  match f 0 with
  | .ok a => ⟨.ok a, 1, 0⟩
  | .error e =>
    if catches e then retryRest catches f backoff_factor max_retries 1 delay 0 1 e
    else ⟨.error e, 1, 0⟩

/-- Exception classifier of the decorators on AIService.generate_story and
AIService.generate_image (ai_service.py lines 95-100 and 298-303): the
tuple (openai.APIError, openai.APITimeoutError, openai.APIConnectionError,
Exception) contains Exception, the base class of every exception the
service can raise, so every exception is caught and retried. -/
def ai_retry_exceptions : PyExc → Bool := fun _ => true

/-- The APICallError produced by generate_story when the underlying client
raises openai.AuthenticationError (ai_service.py lines 262-269). -/
def authApiCallError : PyExc :=
  .apiCallError "API密钥无效，请检查配置" (some 401)

/-! ## Data model: database rows (models/database.py) -/

/-- BookStatus enum (database.py lines 103-107). -/
inductive BookStatus where
  | draft | generating | completed | failed
deriving DecidableEq

/-- The PictureBook columns touched by the generation pipeline
(database.py lines 126-142). -/
structure BookRow where
  title : String
  description : String
  status : BookStatus
  cover_image : Option String
deriving DecidableEq

/-- The BookPage columns written by the generation pipeline
(database.py lines 162-174; the constant layout column is omitted). -/
structure PageRow where
  page_number : Nat
  text_content : String
  image_prompt : String
  image_url : Option String
deriving DecidableEq

/-! ## Story parsing: AIService.generate_story result assembly -/

/-- One element of the pages array of the model's JSON response, before
validation: every field may be missing.  image_prompt_dotted stands for
the malformed key "image.prompt" that the parser also accepts. -/
structure RawPage where
  page_number : Option Nat
  text : Option String
  scene_description : Option String
  description : Option String
  image_prompt : Option String
  image_prompt_dotted : Option String
  image_description : Option String
deriving DecidableEq

/-- StoryPage as produced by generate_story (schemas.StoryPage). -/
structure StoryPage where
  page_number : Nat
  text : String
  scene_description : String
  image_prompt : String
deriving DecidableEq

/-- StoryResponse as produced by generate_story (schemas.StoryResponse). -/
structure StoryResponse where
  title : String
  description : String
  pages : List StoryPage
deriving DecidableEq

/-- Python falsy-or on an optional string: a or b is a when a is present
and non-empty, b otherwise. -/
def pyOr (a : Option String) (b : String) : String :=
  match a with
  | some t => if t = "" then b else t
  | none => b

/-- Embedding of the page-assembly loop of generate_story
(ai_service.py lines 215-230):

    page_number = p.get("page_number", i + 1)
    text = p.get("text", "")
    scene_description = p.get("scene_description", p.get("description", ""))
    image_prompt = p.get("image_prompt") or p.get("image.prompt")
                   or p.get("image_description") or scene_description

No further validation is applied to page_number. -/
def parsePagesFrom : List RawPage → Nat → List StoryPage
  | [], _ => []
  | p :: rest, i =>
    let page_number := p.page_number.getD (i + 1)
    let text := p.text.getD ""
    let scene_description := p.scene_description.getD (p.description.getD "")
    let image_prompt :=
      pyOr p.image_prompt (pyOr p.image_prompt_dotted
        (pyOr p.image_description scene_description))
    { page_number := page_number, text := text,
      scene_description := scene_description,
      image_prompt := image_prompt } :: parsePagesFrom rest (i + 1)

/-- Pages of a parsed story response (enumeration starts at index 0). -/
def parsePages (raws : List RawPage) : List StoryPage :=
  parsePagesFrom raws 0

/-- StoryResponse built from a raw model response (ai_service.py
lines 238-242). -/
def storyFromRaws (title description : String) (raws : List RawPage) :
    StoryResponse :=
  { title := title, description := description, pages := parsePages raws }

/-! ## Batch image generation: AIService.generate_book_images

ai_service.py lines 382-412: for each page the (retry-wrapped) single
image call either returns a URL, in which case the URL is appended and
the progress callback is invoked with (i + 1, total), or raises, in
which case None is appended and the loop continues with no callback.
The oracle f gives the terminal outcome of the wrapped call for the
page at each index. -/
def imagesGo (f : Nat → Except PyExc String) (total : Nat) :
    List StoryPage → Nat → List (Option String) × List (Nat × Nat)
  | [], _ => ([], [])
  | _ :: rest, i =>
    match f i with
    | .ok url =>
      let r := imagesGo f total rest (i + 1)
      (some url :: r.1, (i + 1, total) :: r.2)
    | .error _ =>
      let r := imagesGo f total rest (i + 1)
      (none :: r.1, r.2)

/-- Result of generate_book_images: the list of per-page image URLs
(None for a failed page) paired with the sequence of progress-callback
invocations (current, total). -/
def generate_book_images (f : Nat → Except PyExc String)
    (pages : List StoryPage) : List (Option String) × List (Nat × Nat) :=
  imagesGo f pages.length pages 0

/-! ## The generation task: generate_book_content_task

book_tasks.py lines 37-230.  External effects are oracles in TaskEnv:
the initial database lookup of the book, the terminal outcome of the
retry-wrapped story call, the per-page terminal outcomes of the
retry-wrapped image calls, the success of each database commit
(numbered in execution order), and the success of the single
self.db.refresh(book) performed after the COMPLETED commit (line 194).
RunState separates the in-memory
session object from the durably committed rows; a successful commit
copies the whole pending session state to the durable side, a failed
commit changes nothing durable and raises. -/
structure TaskEnv where
  book : Option BookRow
  request_title : Option String
  storyResult : Except PyExc StoryResponse
  imageResult : Nat → Except PyExc String
  commitOk : Nat → Bool
  refreshOk : Bool

/-- Mutable state of one task run.  persistedPages holds only rows added
by this run (the run starts with none of its own rows committed);
statusLog records the durable status after every successful commit;
progressLog records the progress values of the update_state calls;
enteredSave is set when control reaches the save-pages stage. -/
structure RunState where
  sessionBook : BookRow
  sessionPages : List PageRow
  persistedBook : BookRow
  persistedPages : List PageRow
  commitCount : Nat
  statusLog : List BookStatus
  progressLog : List Nat
  enteredSave : Bool

/-- Return value of a task invocation (the result dictionary of
book_tasks.py lines 205-211 and 226-230). -/
inductive TaskResult where
  | success (title : String) (page_count : Nat)
  | failed (error : String)
deriving DecidableEq

/-- Whether a task result is the FAILED dictionary. -/
def TaskResult.isFailed : TaskResult → Bool
  | .failed _ => true
  | .success _ _ => false

/-- One session.commit(): on success the pending session state becomes
durable and the committed status is recorded; on failure nothing durable
changes and the caller observes the raised exception via the returned
flag. -/
def commitStep (env : TaskEnv) (s : RunState) : Bool × RunState :=
  let k := s.commitCount
  let s' := { s with commitCount := k + 1 }
  if env.commitOk k then
    (true, { s' with persistedBook := s'.sessionBook,
                     persistedPages := s'.sessionPages,
                     statusLog := s'.statusLog ++ [s'.sessionBook.status] })
  else (false, s')

/-- update_state(state='PROGRESS', meta=dict(progress := p, ...)). -/
def logProgress (s : RunState) (p : Nat) : RunState :=
  { s with progressLog := s.progressLog ++ [p] }

/-- book.status = st on the session object. -/
def setStatus (s : RunState) (st : BookStatus) : RunState :=
  { s with sessionBook := { s.sessionBook with status := st } }

/-- The outer exception handler of the task (book_tasks.py lines
213-230): re-query the book, set status FAILED, commit (with failures
swallowed by the bare except), and return the FAILED dictionary. -/
def outerFailureHandler (env : TaskEnv) (s : RunState) (msg : String) :
    TaskResult × RunState :=
  match env.book with
  | none => (.failed msg, s)
  | some _ =>
    let s := setStatus s .failed
    let s := (commitStep env s).2
    (.failed msg, s)

/-- An inner stage-level handler (book_tasks.py lines 115-119 and
198-202): set status FAILED, commit, re-raise; the re-raised exception
then runs the outer handler. -/
def innerFailThenRaise (env : TaskEnv) (s : RunState) (msg : String) :
    TaskResult × RunState :=
  let s := setStatus s .failed
  let s := (commitStep env s).2
  outerFailureHandler env s msg

/-- Progress value reported for each completed image: book_tasks.py line
133, progress = 30 + int((current / total) * 60). -/
def imageProgressValue (current total : Nat) : Nat :=
  30 + current * 60 / total

/-- Python truthiness of an optional string. -/
def truthyStr : Option String → Bool
  | some t => if t = "" then false else true
  | none => false

/-- The save loop (book_tasks.py lines 171-184): append one BookPage row
per story page, with image_url = image_urls[i] if i < len(image_urls)
else None, committing after every fifth page.  A failed commit raises,
returning the state at the failure point on the error side. -/
def saveAdd (urls : List (Option String)) (p : StoryPage) (i : Nat)
    (s : RunState) : RunState :=
  { s with sessionPages := s.sessionPages ++
      [{ page_number := p.page_number, text_content := p.text,
         image_prompt := p.image_prompt, image_url := urls.getD i none }] }

/-- Recursion of the save loop over the remaining story pages, carrying
the enumeration index. -/
def saveGo (env : TaskEnv) (urls : List (Option String)) :
    List StoryPage → Nat → RunState → Except RunState RunState
  | [], _, s => .ok s
  | p :: rest, i, s =>
    let s := saveAdd urls p i s
    if (i + 1) % 5 = 0 then
      let c := commitStep env s
      if c.1 then saveGo env urls rest (i + 1) c.2 else .error c.2
    else saveGo env urls rest (i + 1) s

/-- State carried by either side of a saveGo outcome. -/
def saveState : Except RunState RunState → RunState
  | .ok s => s
  | .error s => s

/-- Cover assignment (book_tasks.py lines 186-188): if image_urls is
non-empty and image_urls[0] truthy, book.cover_image = image_urls[0]. -/
def coverAssign (urls : List (Option String)) (s : RunState) : RunState :=
  if truthyStr (urls.headD none) then
    { s with sessionBook := { s.sessionBook with
                                cover_image := urls.headD none } }
  else s

/-- The cover value the completion step leaves on the book: the first
entry of image_urls when that entry is a truthy URL, the previous cover
otherwise. -/
def coverOf (urls : List (Option String)) (old : Option String) : Option String :=
  if truthyStr (urls.headD none) then urls.headD none else old

/-- Completion step (book_tasks.py lines 186-211): set the cover to
image_urls[0] when the list is non-empty and its first element truthy,
set status COMPLETED, commit, then run self.db.refresh(book) (line 194,
still inside the save-stage try) before returning the SUCCESS
dictionary.  A failed commit — or a refresh that raises after the
COMPLETED commit already succeeded — runs the stage handler and then
the outer handler, which commit FAILED. -/
def finishStage (env : TaskEnv) (story : StoryResponse)
    (urls : List (Option String)) (s : RunState) : TaskResult × RunState :=
  let s := coverAssign urls s
  let s := setStatus s .completed
  let c := commitStep env s
  if c.1 then
    if env.refreshOk then (.success c.2.sessionBook.title story.pages.length, c.2)
    else innerFailThenRaise env c.2 "refresh failed"
  else innerFailThenRaise env c.2 "commit failed"

/-- Save-pages stage (book_tasks.py lines 160-211). -/
def saveStage (env : TaskEnv) (story : StoryResponse)
    (urls : List (Option String)) (s : RunState) : TaskResult × RunState :=
  let s := { s with enteredSave := true }
  match saveGo env urls story.pages 0 s with
  | .error s' => innerFailThenRaise env s' "commit failed"
  | .ok s' => finishStage env story urls s'

/-- Image stage (book_tasks.py lines 121-158): run generate_book_images,
report each callback's progress value, then report progress 90 for the
saving stage and continue. -/
def imagesStage (env : TaskEnv) (story : StoryResponse) (s : RunState) :
    TaskResult × RunState :=
  let r := generate_book_images env.imageResult story.pages
  let s := r.2.foldl (fun acc ct => logProgress acc (imageProgressValue ct.1 ct.2)) s
  let s := logProgress s 90
  saveStage env story r.1 s

/-- Story stage (book_tasks.py lines 85-129): on story failure set
FAILED, commit and re-raise; on success write title (request.title or
story.title) and description onto the session book, commit, report
progress 30 and continue with the image stage. -/
def storyStage (env : TaskEnv) (s : RunState) : TaskResult × RunState :=
  match env.storyResult with
  | .error e => innerFailThenRaise env s (excMessage e)
  | .ok story =>
    let s := { s with sessionBook := { s.sessionBook with
                 title := pyOr env.request_title story.title,
                 description := story.description } }
    let c := commitStep env s
    if c.1 then imagesStage env story (logProgress c.2 30)
    else innerFailThenRaise env c.2 "commit failed"

/-- A book row holding only column defaults, used before the database
lookup has produced a row (never observed by any claim). -/
def emptyBook : BookRow :=
  { title := "", description := "", status := .draft, cover_image := none }

/-- Initial run state. -/
def initState : RunState :=
  { sessionBook := emptyBook, sessionPages := [],
    persistedBook := emptyBook, persistedPages := [],
    commitCount := 0, statusLog := [], progressLog := [],
    enteredSave := false }

/-- Embedding of the body of generate_book_content_task (book_tasks.py
lines 55-230): report progress 0, look the book up (returning the FAILED
dictionary when absent), set status GENERATING and commit, report
progress 10 and run the story, image and save stages.  Any raised
exception reaches the stage handlers and the outer handler exactly as in
the source. -/
def runTask (env : TaskEnv) : TaskResult × RunState :=
  let s := logProgress initState 0
  match env.book with
  | none => (.failed "book not found", s)
  | some b =>
    let s := { s with sessionBook := b, persistedBook := b }
    let s := setStatus s .generating
    let c := commitStep env s
    if c.1 then storyStage env (logProgress c.2 10)
    else outerFailureHandler env c.2 "commit failed"

/-! ## Single-page regeneration and task cancellation -/

/-- Environment of regenerate_page_image_task (book_tasks.py lines
233-317): the looked-up book and page rows and the terminal outcome of
the image call. -/
structure RegenEnv where
  book : Option BookRow
  page : Option PageRow
  imageResult : Except PyExc String

/-- Embedding of regenerate_page_image_task: on success the page's
image_url is replaced and committed; the book row is never written. -/
def regenerate_page_image_task (env : RegenEnv) :
    TaskResult × Option BookRow × Option PageRow :=
  match env.book with
  | none => (.failed "book not found", env.book, env.page)
  | some _ =>
    match env.page with
    | none => (.failed "page not found", env.book, env.page)
    | some pg =>
      match env.imageResult with
      | .ok url =>
        (.success "" 1, env.book, some { pg with image_url := some url })
      | .error e => (.failed (excMessage e), env.book, env.page)

/-- Response of the cancel endpoint (routes.py lines 567-584): the
handler revokes the Celery task and builds a response; the book row it
is given is returned untouched because the handler never queries or
writes the database. -/
structure CancelResponse where
  task_id : String
  status : String
  message : String
deriving DecidableEq

/-- Embedding of cancel_task. -/
def cancel_task (task_id : String) (book : Option BookRow) :
    CancelResponse × Option BookRow :=
  ({ task_id := task_id, status := "cancelled", message := "任务已取消" }, book)

/-! ## Python function-compilation model for the sync/async mismatch

generate_book_content_task is declared with plain def (book_tasks.py
line 38) while its body contains the expressions
await ai_service.generate_story(...) (line 106) and
await ai_service.generate_book_images(...) (line 146).  CPython rejects
an await expression inside a non-async function at compile time, so the
function can never execute its body. -/

/-- Coarse statement shapes of a Python function body; awaitCall marks a
statement containing an await expression at the function's own level,
while innerAsyncDef is a nested async def whose own awaits do not count
against the enclosing function. -/
inductive PyStmt where
  | updateState (stage : String) (progress : Nat)
  | assignment (target : String)
  | commitDb
  | awaitCall (callee : String)
  | innerAsyncDef (defName : String)
  | returnStmt
deriving DecidableEq

/-- A Python function declaration. -/
structure PyFunctionDef where
  declName : String
  isAsync : Bool
  body : List PyStmt

/-- Whether a statement applies await at the enclosing function's level. -/
def stmtIsAwait : PyStmt → Bool
  | .awaitCall _ => true
  | _ => false

/-- CPython's compile-time rule: await is only legal directly inside an
async function. -/
def pyCompileOk (f : PyFunctionDef) : Bool :=
  f.isAsync || !(f.body.any stmtIsAwait)

/-- Statement-level outline of generate_book_content_task: a plain
(synchronous) def whose body awaits the story and image coroutines
(book_tasks.py lines 38-211). -/
def generate_book_content_task_decl : PyFunctionDef :=
  { declName := "generate_book_content_task"
    isAsync := false
    body :=
      [ .updateState "初始化" 0,
        .assignment "book",
        .assignment "book.status",
        .commitDb,
        .updateState "generating_story" 10,
        .awaitCall "ai_service.generate_story",
        .assignment "book.title",
        .assignment "book.description",
        .commitDb,
        .updateState "generating_images" 30,
        .innerAsyncDef "image_progress",
        .awaitCall "ai_service.generate_book_images",
        .updateState "saving_pages" 90,
        .assignment "book_pages",
        .assignment "book.cover_image",
        .assignment "book.status",
        .commitDb,
        .returnStmt ] }

/-- Invoking a Celery task whose registered function fails Python's
compile-time check produces no run at all: the module defining it cannot
even be imported, so the semantics sem is never applied. -/
def invokeCeleryTask (fdecl : PyFunctionDef)
    (sem : TaskEnv → TaskResult × RunState) (env : TaskEnv) :
    Option (TaskResult × RunState) :=
  if pyCompileOk fdecl then some (sem env) else none

/-! ## Claim-specific input environments -/

/-- An environment in which the book exists, the story call succeeds and
every database commit and the final refresh succeed; the image oracle
stays free. -/
def happyEnv (b : BookRow) (rt : Option String) (story : StoryResponse)
    (f : Nat → Except PyExc String) : TaskEnv :=
  { book := some b, request_title := rt, storyResult := .ok story,
    imageResult := f, commitOk := fun _ => true, refreshOk := true }

/-- A fresh draft book row as created by BookService.create_book. -/
def draftBook : BookRow :=
  { title := "未命名绘本", description := "", status := .draft,
    cover_image := none }

/-- Tails that the failure handlers can append to the committed-status
log. -/
def failTail (t : List BookStatus) : Prop :=
  t = [] ∨ t = [BookStatus.failed] ∨ t = [BookStatus.failed, BookStatus.failed]

/-- The order in which the status state machine is allowed to advance:
Draft precedes Generating, which precedes the two terminal states; the
two terminal states are incomparable and nothing may leave them. -/
def statusLe : BookStatus → BookStatus → Bool
  | .draft, _ => true
  | .generating, .generating => true
  | .generating, .completed => true
  | .generating, .failed => true
  | .completed, .completed => true
  | .failed, .failed => true
  | _, _ => false

/-- Pipeline stage of a status: Draft before Generating before the two
terminal states, which share a rank (the code can flip Completed to
Failed when db.refresh raises after the COMPLETED commit, so the two
terminal states are not ordered between themselves). -/
def statusRank : BookStatus → Nat
  | .draft => 0
  | .generating => 1
  | .completed => 2
  | .failed => 2

/-- Tails that a run can append to the committed-status log after its
Generating entries: nothing, a terminal FAILED (possibly repeated by the
outer handler), or a committed COMPLETED optionally followed by the
FAILED commits of the handlers when db.refresh raises afterwards. -/
def terminalTail (t : List BookStatus) : Prop :=
  failTail t ∨ t = [BookStatus.completed] ∨
  t = [BookStatus.completed, BookStatus.failed] ∨
  t = [BookStatus.completed, BookStatus.failed, BookStatus.failed]

/-- The BookPage rows that the save loop builds from the story pages and
the image-URL list, starting at enumeration index i. -/
def rowsFrom (urls : List (Option String)) : List StoryPage → Nat → List PageRow
  | [], _ => []
  | p :: rest, i =>
    { page_number := p.page_number, text_content := p.text,
      image_prompt := p.image_prompt, image_url := urls.getD i none } ::
      rowsFrom urls rest (i + 1)

/-- A list of n well-numbered story pages (page_number = index + 1). -/
def mkPages (n : Nat) : List StoryPage :=
  (List.range n).map (fun i =>
    { page_number := i + 1, text := "story text", scene_description := "scene",
      image_prompt := "prompt" })

/-- A concrete story with n pages. -/
def mkStory (n : Nat) : StoryResponse :=
  { title := "勇敢的兔子", description := "一个关于勇气的故事", pages := mkPages n }

/-- Image oracle that fails exactly at page index 2 (the third page) and
succeeds everywhere else. -/
def degradedImages (u : Nat → String) (e : PyExc) : Nat → Except PyExc String :=
  fun i => if i = 2 then .error e else .ok (u i)

/-- Input for the save-stage failure scenario: a draft book, a 4-page
story, all images succeed, and exactly the third commit (the final
COMPLETED commit of this run) fails; the failure handlers then commit
the pending page rows together with the FAILED status. -/
def envSaveFail : TaskEnv :=
  { book := some draftBook, request_title := none,
    storyResult := .ok (mkStory 4),
    imageResult := fun _ => .ok "http://img/page.png",
    commitOk := fun k => decide (k ≠ 2), refreshOk := true }

/-- Input in which the (retry-wrapped) story call terminally fails with
the auth-mapped APICallError. -/
def envStoryFail : TaskEnv :=
  { book := some draftBook, request_title := none,
    storyResult := .error authApiCallError,
    imageResult := fun _ => .ok "http://img/page.png",
    commitOk := fun _ => true, refreshOk := true }

/-- Input in which the book generates successfully and every commit
succeeds, but the db.refresh after the COMPLETED commit raises: the
save-stage handler and the outer handler then commit FAILED on top of
the committed COMPLETED. -/
def envRefreshFail : TaskEnv :=
  { book := some draftBook, request_title := none,
    storyResult := .ok (mkStory 0),
    imageResult := fun _ => .ok "http://img/page.png",
    commitOk := fun _ => true, refreshOk := false }

/-- A book whose previous generation run already completed. -/
def completedBookRow : BookRow :=
  { title := "旧绘本", description := "旧的故事", status := .completed,
    cover_image := some "http://img/old.png" }

/-- Input for the regression scenario: the generation task is started on
a book that is already Completed (nothing in the code prevents this). -/
def envRegression : TaskEnv :=
  happyEnv completedBookRow none (mkStory 0) (fun _ => .error (.generic "x"))

/-- Input for the cover scenario: two pages, page 1's image fails,
page 2's image succeeds. -/
def envCoverMiss : TaskEnv :=
  happyEnv draftBook none (mkStory 2)
    (fun i => if i = 0 then .error (.generic "image failed")
              else .ok "http://img/2.png")

/-- A raw story page carrying an explicit page_number from the model's
JSON. -/
def rawPageNumbered (n : Nat) : RawPage :=
  { page_number := some n, text := some "story text",
    scene_description := some "scene", description := none,
    image_prompt := some "prompt", image_prompt_dotted := none,
    image_description := none }

/-- A raw story page with no page_number field (the parser defaults it
to index + 1). -/
def rawPageDefault : RawPage :=
  { page_number := none, text := some "story text",
    scene_description := some "scene", description := none,
    image_prompt := some "prompt", image_prompt_dotted := none,
    image_description := none }

/-- Input for the duplicate-page-number scenario: the model's response
numbers both pages 7, and everything else succeeds. -/
def envDupNumbers : TaskEnv :=
  happyEnv draftBook none
    (storyFromRaws "标题" "简介" [rawPageNumbered 7, rawPageNumbered 7])
    (fun _ => .ok "http://img/page.png")

/-- Contiguity property claimed for a completed book's page numbers:
the persisted values are a permutation of 1..length. -/
def pagesDenseOneTo (l : List Nat) : Prop :=
  l.Perm (List.range' 1 l.length)

/-- Upper bound on wrapped-function invocations: retryRest performs at
most retriesLeft further calls. -/
theorem retryRest_calls_le {A : Type} (catches : PyExc → Bool)
    (f : Nat → Except PyExc A) (b : Rat) :
    ∀ (r attempt : Nat) (d sl : Rat) (c : Nat) (e : PyExc),
      (retryRest catches f b r attempt d sl c e).calls ≤ c + r := by
  intro r
  induction r with
  | zero => intro attempt d sl c e; simp [retryRest]
  | succ n ih =>
    intro attempt d sl c e
    simp only [retryRest]
    cases f attempt with
    | ok a => simp
    | error e' =>
      by_cases h : catches e'
      · simp only [h, if_true]
        have := ih (attempt + 1) (d * b) (sl + d) (c + 1) e'
        omega
      · simp [h]

/-! ## Preservation lemmas for the run-state operations -/

@[simp]
theorem commitStep_sessionBook (env : TaskEnv) (s : RunState) :
    ((commitStep env s).2).sessionBook = s.sessionBook := by
  by_cases h : env.commitOk s.commitCount <;> simp [commitStep, h]

@[simp]
theorem commitStep_sessionPages (env : TaskEnv) (s : RunState) :
    ((commitStep env s).2).sessionPages = s.sessionPages := by
  by_cases h : env.commitOk s.commitCount <;> simp [commitStep, h]

@[simp]
theorem commitStep_progressLog (env : TaskEnv) (s : RunState) :
    ((commitStep env s).2).progressLog = s.progressLog := by
  by_cases h : env.commitOk s.commitCount <;> simp [commitStep, h]

@[simp]
theorem commitStep_enteredSave (env : TaskEnv) (s : RunState) :
    ((commitStep env s).2).enteredSave = s.enteredSave := by
  by_cases h : env.commitOk s.commitCount <;> simp [commitStep, h]

theorem commitStep_statusLog (env : TaskEnv) (s : RunState) :
    ((commitStep env s).2).statusLog = s.statusLog ∨
    ((commitStep env s).2).statusLog = s.statusLog ++ [s.sessionBook.status] := by
  by_cases h : env.commitOk s.commitCount <;> simp [commitStep, h]

theorem commitStep_persistedPages (env : TaskEnv) (s : RunState) :
    ((commitStep env s).2).persistedPages = s.persistedPages ∨
    ((commitStep env s).2).persistedPages = s.sessionPages := by
  by_cases h : env.commitOk s.commitCount <;> simp [commitStep, h]

theorem commitStep_true (env : TaskEnv) (s : RunState)
    (h : env.commitOk s.commitCount = true) :
    commitStep env s =
      (true, { s with commitCount := s.commitCount + 1,
                      persistedBook := s.sessionBook,
                      persistedPages := s.sessionPages,
                      statusLog := s.statusLog ++ [s.sessionBook.status] }) := by
  simp [commitStep, h]

@[simp]
theorem outerFailureHandler_fst (env : TaskEnv) (s : RunState) (m : String) :
    (outerFailureHandler env s m).1 = .failed m := by
  unfold outerFailureHandler
  cases env.book <;> simp

@[simp]
theorem outerFailureHandler_progressLog (env : TaskEnv) (s : RunState) (m : String) :
    ((outerFailureHandler env s m).2).progressLog = s.progressLog := by
  unfold outerFailureHandler
  cases env.book <;> simp [setStatus, commitStep_progressLog]

@[simp]
theorem outerFailureHandler_enteredSave (env : TaskEnv) (s : RunState) (m : String) :
    ((outerFailureHandler env s m).2).enteredSave = s.enteredSave := by
  unfold outerFailureHandler
  cases env.book <;> simp [setStatus, commitStep_enteredSave]

theorem outerFailureHandler_persistedPages (env : TaskEnv) (s : RunState) (m : String) :
    ((outerFailureHandler env s m).2).persistedPages = s.persistedPages ∨
    ((outerFailureHandler env s m).2).persistedPages = s.sessionPages := by
  unfold outerFailureHandler
  cases env.book with
  | none => simp
  | some b =>
    have := commitStep_persistedPages env (setStatus s .failed)
    simpa [setStatus] using this

theorem outerFailureHandler_statusLog (env : TaskEnv) (s : RunState) (m : String) :
    ∃ t, ((outerFailureHandler env s m).2).statusLog = s.statusLog ++ t ∧
      (t = [] ∨ t = [BookStatus.failed]) := by
  unfold outerFailureHandler
  cases env.book with
  | none => exact ⟨[], by simp, Or.inl rfl⟩
  | some b =>
    rcases commitStep_statusLog env (setStatus s .failed) with h | h
    · exact ⟨[], by simpa [setStatus] using h, Or.inl rfl⟩
    · exact ⟨[BookStatus.failed], by simpa [setStatus] using h, Or.inr rfl⟩

@[simp]
theorem innerFailThenRaise_fst (env : TaskEnv) (s : RunState) (m : String) :
    (innerFailThenRaise env s m).1 = .failed m := by
  unfold innerFailThenRaise
  exact outerFailureHandler_fst _ _ _

@[simp]
theorem innerFailThenRaise_progressLog (env : TaskEnv) (s : RunState) (m : String) :
    ((innerFailThenRaise env s m).2).progressLog = s.progressLog := by
  unfold innerFailThenRaise
  rw [outerFailureHandler_progressLog]
  simp [setStatus, commitStep_progressLog]

@[simp]
theorem innerFailThenRaise_enteredSave (env : TaskEnv) (s : RunState) (m : String) :
    ((innerFailThenRaise env s m).2).enteredSave = s.enteredSave := by
  unfold innerFailThenRaise
  rw [outerFailureHandler_enteredSave]
  simp [setStatus, commitStep_enteredSave]

theorem innerFailThenRaise_persistedPages (env : TaskEnv) (s : RunState) (m : String) :
    ((innerFailThenRaise env s m).2).persistedPages = s.persistedPages ∨
    ((innerFailThenRaise env s m).2).persistedPages = s.sessionPages := by
  unfold innerFailThenRaise
  rcases outerFailureHandler_persistedPages env ((commitStep env (setStatus s .failed)).2) m with h | h
  · rw [h]
    have := commitStep_persistedPages env (setStatus s .failed)
    simpa [setStatus] using this
  · rw [h, commitStep_sessionPages]
    right; simp [setStatus]

theorem innerFailThenRaise_statusLog (env : TaskEnv) (s : RunState) (m : String) :
    ∃ t, ((innerFailThenRaise env s m).2).statusLog = s.statusLog ++ t ∧ failTail t := by
  unfold innerFailThenRaise
  rcases outerFailureHandler_statusLog env ((commitStep env (setStatus s .failed)).2) m
    with ⟨t₂, h₂, ht₂⟩
  rcases commitStep_statusLog env (setStatus s .failed) with h₁ | h₁ <;>
    rw [h₁] at h₂
  · refine ⟨t₂, by simpa [setStatus] using h₂, ?_⟩
    rcases ht₂ with h | h
    · exact Or.inl h
    · exact Or.inr (Or.inl h)
  · rcases ht₂ with h | h
    · subst h
      exact ⟨[BookStatus.failed], by simpa [setStatus] using h₂,
        Or.inr (Or.inl rfl)⟩
    · subst h
      refine ⟨[BookStatus.failed, BookStatus.failed], ?_, Or.inr (Or.inr rfl)⟩
      have : (setStatus s .failed).sessionBook.status = BookStatus.failed := by
        simp [setStatus]
      rw [h₂]
      simp [setStatus]

@[simp]
theorem logProgress_statusLog (s : RunState) (p : Nat) :
    (logProgress s p).statusLog = s.statusLog := rfl

@[simp]
theorem logProgress_sessionBook (s : RunState) (p : Nat) :
    (logProgress s p).sessionBook = s.sessionBook := rfl

@[simp]
theorem logProgress_sessionPages (s : RunState) (p : Nat) :
    (logProgress s p).sessionPages = s.sessionPages := rfl

@[simp]
theorem logProgress_persistedPages (s : RunState) (p : Nat) :
    (logProgress s p).persistedPages = s.persistedPages := rfl

@[simp]
theorem logProgress_enteredSave (s : RunState) (p : Nat) :
    (logProgress s p).enteredSave = s.enteredSave := rfl

@[simp]
theorem logProgress_progressLog (s : RunState) (p : Nat) :
    (logProgress s p).progressLog = s.progressLog ++ [p] := rfl

@[simp]
theorem setStatus_statusLog (s : RunState) (st : BookStatus) :
    (setStatus s st).statusLog = s.statusLog := rfl

@[simp]
theorem setStatus_progressLog (s : RunState) (st : BookStatus) :
    (setStatus s st).progressLog = s.progressLog := rfl

@[simp]
theorem setStatus_sessionPages (s : RunState) (st : BookStatus) :
    (setStatus s st).sessionPages = s.sessionPages := rfl

@[simp]
theorem setStatus_persistedPages (s : RunState) (st : BookStatus) :
    (setStatus s st).persistedPages = s.persistedPages := rfl

@[simp]
theorem setStatus_enteredSave (s : RunState) (st : BookStatus) :
    (setStatus s st).enteredSave = s.enteredSave := rfl

@[simp]
theorem setStatus_status (s : RunState) (st : BookStatus) :
    (setStatus s st).sessionBook.status = st := rfl

@[simp]
theorem setStatus_cover (s : RunState) (st : BookStatus) :
    (setStatus s st).sessionBook.cover_image = s.sessionBook.cover_image := rfl

@[simp]
theorem setStatus_title (s : RunState) (st : BookStatus) :
    (setStatus s st).sessionBook.title = s.sessionBook.title := rfl

@[simp]
theorem saveAdd_sessionBook (urls : List (Option String)) (p : StoryPage)
    (i : Nat) (s : RunState) : (saveAdd urls p i s).sessionBook = s.sessionBook := rfl

@[simp]
theorem saveAdd_statusLog (urls : List (Option String)) (p : StoryPage)
    (i : Nat) (s : RunState) : (saveAdd urls p i s).statusLog = s.statusLog := rfl

@[simp]
theorem saveAdd_progressLog (urls : List (Option String)) (p : StoryPage)
    (i : Nat) (s : RunState) : (saveAdd urls p i s).progressLog = s.progressLog := rfl

@[simp]
theorem saveAdd_enteredSave (urls : List (Option String)) (p : StoryPage)
    (i : Nat) (s : RunState) : (saveAdd urls p i s).enteredSave = s.enteredSave := rfl

theorem commitStep_fst (env : TaskEnv) (s : RunState) :
    (commitStep env s).1 = env.commitOk s.commitCount := by
  by_cases h : env.commitOk s.commitCount <;> simp [commitStep, h]

theorem commitStep_statusLog_of_true (env : TaskEnv) (s : RunState)
    (h : (commitStep env s).1 = true) :
    ((commitStep env s).2).statusLog = s.statusLog ++ [s.sessionBook.status] := by
  rw [commitStep_fst] at h
  simp [commitStep, h]

theorem commitStep_statusLog_of_false (env : TaskEnv) (s : RunState)
    (h : (commitStep env s).1 = false) :
    ((commitStep env s).2).statusLog = s.statusLog := by
  rw [commitStep_fst] at h
  simp [commitStep, h]

theorem commitStep_persisted_of_true (env : TaskEnv) (s : RunState)
    (h : (commitStep env s).1 = true) :
    ((commitStep env s).2).persistedBook = s.sessionBook ∧
    ((commitStep env s).2).persistedPages = s.sessionPages := by
  rw [commitStep_fst] at h
  simp [commitStep, h]

@[simp]
theorem coverAssign_sessionPages (urls : List (Option String)) (s : RunState) :
    (coverAssign urls s).sessionPages = s.sessionPages := by
  unfold coverAssign; split <;> rfl

@[simp]
theorem coverAssign_statusLog (urls : List (Option String)) (s : RunState) :
    (coverAssign urls s).statusLog = s.statusLog := by
  unfold coverAssign; split <;> rfl

@[simp]
theorem coverAssign_progressLog (urls : List (Option String)) (s : RunState) :
    (coverAssign urls s).progressLog = s.progressLog := by
  unfold coverAssign; split <;> rfl

@[simp]
theorem coverAssign_enteredSave (urls : List (Option String)) (s : RunState) :
    (coverAssign urls s).enteredSave = s.enteredSave := by
  unfold coverAssign; split <;> rfl

@[simp]
theorem coverAssign_commitCount (urls : List (Option String)) (s : RunState) :
    (coverAssign urls s).commitCount = s.commitCount := by
  unfold coverAssign; split <;> rfl

@[simp]
theorem coverAssign_cover (urls : List (Option String)) (s : RunState) :
    (coverAssign urls s).sessionBook.cover_image =
      coverOf urls s.sessionBook.cover_image := by
  unfold coverAssign coverOf; split <;> rfl

theorem coverAssign_status (urls : List (Option String)) (s : RunState) :
    (coverAssign urls s).sessionBook.status = s.sessionBook.status := by
  unfold coverAssign; split <;> rfl

/-- The image-progress reporting fold appends one progress value per
callback invocation and changes nothing else. -/
theorem foldl_logProgress_progressLog :
    ∀ (l : List (Nat × Nat)) (s : RunState),
      (l.foldl (fun acc ct => logProgress acc (imageProgressValue ct.1 ct.2)) s).progressLog =
        s.progressLog ++ l.map (fun ct => imageProgressValue ct.1 ct.2) := by
  intro l
  induction l with
  | nil => intro s; simp
  | cons a rest ih =>
    intro s
    rw [List.foldl_cons, ih]
    simp [logProgress]

@[simp]
theorem foldl_logProgress_statusLog :
    ∀ (l : List (Nat × Nat)) (s : RunState),
      (l.foldl (fun acc ct => logProgress acc (imageProgressValue ct.1 ct.2)) s).statusLog =
        s.statusLog := by
  intro l
  induction l with
  | nil => intro s; rfl
  | cons a rest ih => intro s; rw [List.foldl_cons, ih]; rfl

@[simp]
theorem foldl_logProgress_sessionBook :
    ∀ (l : List (Nat × Nat)) (s : RunState),
      (l.foldl (fun acc ct => logProgress acc (imageProgressValue ct.1 ct.2)) s).sessionBook =
        s.sessionBook := by
  intro l
  induction l with
  | nil => intro s; rfl
  | cons a rest ih => intro s; rw [List.foldl_cons, ih]; rfl

@[simp]
theorem foldl_logProgress_sessionPages :
    ∀ (l : List (Nat × Nat)) (s : RunState),
      (l.foldl (fun acc ct => logProgress acc (imageProgressValue ct.1 ct.2)) s).sessionPages =
        s.sessionPages := by
  intro l
  induction l with
  | nil => intro s; rfl
  | cons a rest ih => intro s; rw [List.foldl_cons, ih]; rfl

@[simp]
theorem foldl_logProgress_enteredSave :
    ∀ (l : List (Nat × Nat)) (s : RunState),
      (l.foldl (fun acc ct => logProgress acc (imageProgressValue ct.1 ct.2)) s).enteredSave =
        s.enteredSave := by
  intro l
  induction l with
  | nil => intro s; rfl
  | cons a rest ih => intro s; rw [List.foldl_cons, ih]; rfl

@[simp]
theorem foldl_logProgress_persistedPages :
    ∀ (l : List (Nat × Nat)) (s : RunState),
      (l.foldl (fun acc ct => logProgress acc (imageProgressValue ct.1 ct.2)) s).persistedPages =
        s.persistedPages := by
  intro l
  induction l with
  | nil => intro s; rfl
  | cons a rest ih => intro s; rw [List.foldl_cons, ih]; rfl

theorem saveGo_sessionBook (env : TaskEnv) (urls : List (Option String)) :
    ∀ (pages : List StoryPage) (i : Nat) (s : RunState),
      (saveState (saveGo env urls pages i s)).sessionBook = s.sessionBook := by
  intro pages
  induction pages with
  | nil => intro i s; rfl
  | cons p rest ih =>
    intro i s
    simp only [saveGo]
    by_cases h5 : (i + 1) % 5 = 0
    · simp only [h5, if_true]
      by_cases hc : (commitStep env (saveAdd urls p i s)).1 = true
      · rw [if_pos hc, ih, commitStep_sessionBook, saveAdd_sessionBook]
      · rw [if_neg hc]
        show ((commitStep env (saveAdd urls p i s)).2).sessionBook = s.sessionBook
        rw [commitStep_sessionBook, saveAdd_sessionBook]
    · rw [if_neg h5, ih, saveAdd_sessionBook]

theorem saveGo_progressLog (env : TaskEnv) (urls : List (Option String)) :
    ∀ (pages : List StoryPage) (i : Nat) (s : RunState),
      (saveState (saveGo env urls pages i s)).progressLog = s.progressLog := by
  intro pages
  induction pages with
  | nil => intro i s; rfl
  | cons p rest ih =>
    intro i s
    simp only [saveGo]
    by_cases h5 : (i + 1) % 5 = 0
    · simp only [h5, if_true]
      by_cases hc : (commitStep env (saveAdd urls p i s)).1 = true
      · rw [if_pos hc, ih, commitStep_progressLog, saveAdd_progressLog]
      · rw [if_neg hc]
        show ((commitStep env (saveAdd urls p i s)).2).progressLog = s.progressLog
        rw [commitStep_progressLog, saveAdd_progressLog]
    · rw [if_neg h5, ih, saveAdd_progressLog]

theorem saveGo_enteredSave (env : TaskEnv) (urls : List (Option String)) :
    ∀ (pages : List StoryPage) (i : Nat) (s : RunState),
      (saveState (saveGo env urls pages i s)).enteredSave = s.enteredSave := by
  intro pages
  induction pages with
  | nil => intro i s; rfl
  | cons p rest ih =>
    intro i s
    simp only [saveGo]
    by_cases h5 : (i + 1) % 5 = 0
    · simp only [h5, if_true]
      by_cases hc : (commitStep env (saveAdd urls p i s)).1 = true
      · rw [if_pos hc, ih, commitStep_enteredSave, saveAdd_enteredSave]
      · rw [if_neg hc]
        show ((commitStep env (saveAdd urls p i s)).2).enteredSave = s.enteredSave
        rw [commitStep_enteredSave, saveAdd_enteredSave]
    · rw [if_neg h5, ih, saveAdd_enteredSave]

theorem saveGo_statusLog (env : TaskEnv) (urls : List (Option String)) :
    ∀ (pages : List StoryPage) (i : Nat) (s : RunState),
      ∃ n, (saveState (saveGo env urls pages i s)).statusLog =
        s.statusLog ++ List.replicate n s.sessionBook.status := by
  intro pages
  induction pages with
  | nil => intro i s; exact ⟨0, by simp [saveGo, saveState]⟩
  | cons p rest ih =>
    intro i s
    simp only [saveGo]
    by_cases h5 : (i + 1) % 5 = 0
    · simp only [h5, if_true]
      by_cases hc : (commitStep env (saveAdd urls p i s)).1 = true
      · rw [if_pos hc]
        rcases ih (i + 1) ((commitStep env (saveAdd urls p i s)).2) with ⟨n, hn⟩
        rcases commitStep_statusLog env (saveAdd urls p i s) with h | h
        · refine ⟨n, ?_⟩
          rw [hn, h, commitStep_sessionBook, saveAdd_statusLog, saveAdd_sessionBook]
        · refine ⟨n + 1, ?_⟩
          rw [hn, h, commitStep_sessionBook, saveAdd_statusLog, saveAdd_sessionBook]
          simp [List.replicate_succ, List.append_assoc]
      · rw [if_neg hc]
        rcases commitStep_statusLog env (saveAdd urls p i s) with h | h
        · exact ⟨0, by
            show ((commitStep env (saveAdd urls p i s)).2).statusLog = _
            rw [h, saveAdd_statusLog]; simp⟩
        · exact ⟨1, by
            show ((commitStep env (saveAdd urls p i s)).2).statusLog = _
            rw [h, saveAdd_statusLog, saveAdd_sessionBook]; simp⟩
    · rw [if_neg h5]
      rcases ih (i + 1) (saveAdd urls p i s) with ⟨n, hn⟩
      exact ⟨n, by rw [hn, saveAdd_statusLog, saveAdd_sessionBook]⟩

/-! ## Stage-level lemmas -/

theorem finishStage_enteredSave (env : TaskEnv) (story : StoryResponse)
    (urls : List (Option String)) (s : RunState) :
    ((finishStage env story urls s).2).enteredSave = s.enteredSave := by
  by_cases hc : (commitStep env (setStatus (coverAssign urls s) .completed)).1 = true
  · cases hr : env.refreshOk <;> simp [finishStage, hc, hr]
  · simp [finishStage, hc]

theorem finishStage_progressLog (env : TaskEnv) (story : StoryResponse)
    (urls : List (Option String)) (s : RunState) :
    ((finishStage env story urls s).2).progressLog = s.progressLog := by
  by_cases hc : (commitStep env (setStatus (coverAssign urls s) .completed)).1 = true
  · cases hr : env.refreshOk <;> simp [finishStage, hc, hr]
  · simp [finishStage, hc]

theorem finishStage_statusLog (env : TaskEnv) (story : StoryResponse)
    (urls : List (Option String)) (s : RunState) :
    ∃ t, ((finishStage env story urls s).2).statusLog = s.statusLog ++ t ∧
      terminalTail t := by
  by_cases hc : (commitStep env (setStatus (coverAssign urls s) .completed)).1 = true
  · have hlog := commitStep_statusLog_of_true env
      (setStatus (coverAssign urls s) .completed) hc
    cases hr : env.refreshOk with
    | true =>
      refine ⟨[BookStatus.completed], ?_, Or.inr (Or.inl rfl)⟩
      simp only [finishStage]
      rw [if_pos hc, if_pos hr, hlog]
      simp
    | false =>
      rcases innerFailThenRaise_statusLog env
        ((commitStep env (setStatus (coverAssign urls s) .completed)).2)
        "refresh failed" with ⟨t, ht, hft⟩
      refine ⟨BookStatus.completed :: t, ?_, ?_⟩
      · simp only [finishStage]
        rw [if_pos hc, if_neg (by simp [hr]), ht, hlog]
        simp
      · rcases hft with rfl | rfl | rfl
        · exact Or.inr (Or.inl rfl)
        · exact Or.inr (Or.inr (Or.inl rfl))
        · exact Or.inr (Or.inr (Or.inr rfl))
  · have hcf : (commitStep env (setStatus (coverAssign urls s) .completed)).1 = false := by
      simpa using hc
    rcases innerFailThenRaise_statusLog env
      ((commitStep env (setStatus (coverAssign urls s) .completed)).2)
      "commit failed" with ⟨t, ht, hft⟩
    refine ⟨t, ?_, Or.inl hft⟩
    simp only [finishStage]
    rw [if_neg hc, ht, commitStep_statusLog_of_false env _ hcf]
    simp

theorem saveStage_enteredSave (env : TaskEnv) (story : StoryResponse)
    (urls : List (Option String)) (s : RunState) :
    ((saveStage env story urls s).2).enteredSave = true := by
  have hs := saveGo_enteredSave env urls story.pages 0 { s with enteredSave := true }
  cases hsg : saveGo env urls story.pages 0 { s with enteredSave := true } with
  | error s' =>
    rw [hsg] at hs
    simp only [saveState] at hs
    simp [saveStage, hsg, hs]
  | ok s' =>
    rw [hsg] at hs
    simp only [saveState] at hs
    simp [saveStage, hsg, finishStage_enteredSave, hs]

theorem saveStage_progressLog (env : TaskEnv) (story : StoryResponse)
    (urls : List (Option String)) (s : RunState) :
    ((saveStage env story urls s).2).progressLog = s.progressLog := by
  have hs := saveGo_progressLog env urls story.pages 0 { s with enteredSave := true }
  cases hsg : saveGo env urls story.pages 0 { s with enteredSave := true } with
  | error s' =>
    rw [hsg] at hs
    simp only [saveState] at hs
    simp [saveStage, hsg, hs]
  | ok s' =>
    rw [hsg] at hs
    simp only [saveState] at hs
    simp [saveStage, hsg, finishStage_progressLog, hs]

theorem saveStage_statusLog (env : TaskEnv) (story : StoryResponse)
    (urls : List (Option String)) (s : RunState)
    (h : s.sessionBook.status = .generating) :
    ∃ n t, ((saveStage env story urls s).2).statusLog =
      s.statusLog ++ List.replicate n BookStatus.generating ++ t ∧
      terminalTail t := by
  rcases saveGo_statusLog env urls story.pages 0 { s with enteredSave := true }
    with ⟨n, hn⟩
  cases hsg : saveGo env urls story.pages 0 { s with enteredSave := true } with
  | error s' =>
    rw [hsg] at hn
    simp only [saveState] at hn
    rcases innerFailThenRaise_statusLog env s' "commit failed" with ⟨t, ht, hft⟩
    refine ⟨n, t, ?_, Or.inl hft⟩
    simp only [saveStage, hsg]
    rw [ht, hn]
    simp [h, List.append_assoc]
  | ok s' =>
    rw [hsg] at hn
    simp only [saveState] at hn
    rcases finishStage_statusLog env story urls s' with ⟨t, ht, hcase⟩
    refine ⟨n, t, ?_, hcase⟩
    simp only [saveStage, hsg]
    rw [ht, hn]
    simp [h, List.append_assoc]

theorem imagesStage_enteredSave (env : TaskEnv) (story : StoryResponse)
    (s : RunState) : ((imagesStage env story s).2).enteredSave = true := by
  unfold imagesStage
  exact saveStage_enteredSave _ _ _ _

theorem imagesStage_progressLog (env : TaskEnv) (story : StoryResponse)
    (s : RunState) :
    ((imagesStage env story s).2).progressLog =
      s.progressLog ++
        ((generate_book_images env.imageResult story.pages).2.map
          (fun ct => imageProgressValue ct.1 ct.2)) ++ [90] := by
  unfold imagesStage
  rw [saveStage_progressLog]
  simp [foldl_logProgress_progressLog, List.append_assoc]

theorem imagesStage_statusLog (env : TaskEnv) (story : StoryResponse)
    (s : RunState) (h : s.sessionBook.status = .generating) :
    ∃ n t, ((imagesStage env story s).2).statusLog =
      s.statusLog ++ List.replicate n BookStatus.generating ++ t ∧
      terminalTail t := by
  unfold imagesStage
  rcases saveStage_statusLog env story
      (generate_book_images env.imageResult story.pages).1
      (logProgress
        ((generate_book_images env.imageResult story.pages).2.foldl
          (fun acc ct => logProgress acc (imageProgressValue ct.1 ct.2)) s) 90)
      (by simp [foldl_logProgress_sessionBook, h]) with ⟨n, t, hl, hcase⟩
  refine ⟨n, t, ?_, hcase⟩
  rw [hl]
  simp [foldl_logProgress_statusLog]

theorem storyStage_of_error (env : TaskEnv) (s : RunState) (e : PyExc)
    (he : env.storyResult = .error e) :
    storyStage env s = innerFailThenRaise env s (excMessage e) := by
  unfold storyStage
  rw [he]

theorem storyStage_statusLog (env : TaskEnv) (s : RunState)
    (h : s.sessionBook.status = .generating) :
    ∃ n t, ((storyStage env s).2).statusLog =
      s.statusLog ++ List.replicate n BookStatus.generating ++ t ∧
      terminalTail t := by
  cases hst : env.storyResult with
  | error e =>
    rcases innerFailThenRaise_statusLog env s (excMessage e) with ⟨t, ht, hft⟩
    refine ⟨0, t, ?_, Or.inl hft⟩
    rw [storyStage_of_error env s e hst, ht]
    simp
  | ok story =>
    simp only [storyStage, hst]
    by_cases hc : (commitStep env { s with sessionBook := { s.sessionBook with
        title := pyOr env.request_title story.title,
        description := story.description } }).1 = true
    · simp only [hc, if_true]
      have hlog := commitStep_statusLog_of_true env _ hc
      rcases imagesStage_statusLog env story
          (logProgress (commitStep env { s with sessionBook := { s.sessionBook with
            title := pyOr env.request_title story.title,
            description := story.description } }).2 30)
          (by rw [logProgress_sessionBook, commitStep_sessionBook]; exact h)
        with ⟨n, t, hl, hcase⟩
      refine ⟨n + 1, t, ?_, hcase⟩
      rw [hl]
      simp only [logProgress_statusLog, hlog]
      have hstat : ({ s with sessionBook := { s.sessionBook with
          title := pyOr env.request_title story.title,
          description := story.description } } : RunState).sessionBook.status =
          BookStatus.generating := h
      rw [hstat]
      simp [List.replicate_succ, List.append_assoc]
    · have hcf : (commitStep env { s with sessionBook := { s.sessionBook with
          title := pyOr env.request_title story.title,
          description := story.description } }).1 = false := by simpa using hc
      rcases innerFailThenRaise_statusLog env
        ((commitStep env { s with sessionBook := { s.sessionBook with
          title := pyOr env.request_title story.title,
          description := story.description } }).2) "commit failed"
        with ⟨t, ht, hft⟩
      refine ⟨0, t, ?_, Or.inl hft⟩
      rw [if_neg hc, ht, commitStep_statusLog_of_false env _ hcf]
      simp

theorem storyStage_progressLog (env : TaskEnv) (s : RunState) :
    ((storyStage env s).2).progressLog = s.progressLog ∨
    ∃ story, env.storyResult = .ok story ∧
      ((storyStage env s).2).progressLog =
        s.progressLog ++ [30] ++
          ((generate_book_images env.imageResult story.pages).2.map
            (fun ct => imageProgressValue ct.1 ct.2)) ++ [90] := by
  cases hst : env.storyResult with
  | error e =>
    left
    rw [storyStage_of_error env s e hst]
    simp
  | ok story =>
    simp only [storyStage, hst]
    by_cases hc : (commitStep env { s with sessionBook := { s.sessionBook with
        title := pyOr env.request_title story.title,
        description := story.description } }).1 = true
    · right
      refine ⟨story, rfl, ?_⟩
      simp only [hc, if_true]
      rw [imagesStage_progressLog]
      simp [List.append_assoc]
    · left
      simp [hc]

theorem storyStage_pre (env : TaskEnv) (s : RunState)
    (hsp : s.sessionPages = []) (hpp : s.persistedPages = []) :
    ((storyStage env s).2).enteredSave = false →
    ((storyStage env s).2).persistedPages = [] := by
  cases hst : env.storyResult with
  | error e =>
    intro _
    rw [storyStage_of_error env s e hst]
    rcases innerFailThenRaise_persistedPages env s (excMessage e) with hh | hh <;>
      rw [hh] <;> assumption
  | ok story =>
    simp only [storyStage, hst]
    by_cases hc : (commitStep env { s with sessionBook := { s.sessionBook with
        title := pyOr env.request_title story.title,
        description := story.description } }).1 = true
    · simp only [hc, if_true]
      intro hcontra
      rw [imagesStage_enteredSave] at hcontra
      cases hcontra
    · rw [if_neg hc]
      intro _
      have hpp2 : ((commitStep env { s with sessionBook := { s.sessionBook with
          title := pyOr env.request_title story.title,
          description := story.description } }).2).persistedPages = [] := by
        rcases commitStep_persistedPages env ({ s with sessionBook := { s.sessionBook with
            title := pyOr env.request_title story.title,
            description := story.description } }) with hh | hh <;> rw [hh]
        · simpa using hpp
        · simpa using hsp
      have hsp2 : ((commitStep env { s with sessionBook := { s.sessionBook with
          title := pyOr env.request_title story.title,
          description := story.description } }).2).sessionPages = [] := by
        rw [commitStep_sessionPages]
        simpa using hsp
      rcases innerFailThenRaise_persistedPages env
        ((commitStep env { s with sessionBook := { s.sessionBook with
          title := pyOr env.request_title story.title,
          description := story.description } }).2) "commit failed" with hh | hh <;>
        rw [hh] <;> assumption

theorem storyStage_fst_of_error (env : TaskEnv) (s : RunState) (e : PyExc)
    (he : env.storyResult = .error e) :
    ((storyStage env s).1) = .failed (excMessage e) := by
  rw [storyStage_of_error env s e he]
  simp

/-! ## Whole-run lemmas -/

/-- The committed statuses of any run are some number of Generating
entries followed by at most one terminal outcome (with the FAILED commit
possibly repeated by the outer handler). -/
theorem runTask_statusLog (env : TaskEnv) :
    ∃ n t, (runTask env).2.statusLog =
      List.replicate n BookStatus.generating ++ t ∧
      terminalTail t := by
  cases henv : env.book with
  | none =>
    refine ⟨0, [], ?_, Or.inl (Or.inl rfl)⟩
    simp [runTask, henv, initState, logProgress]
  | some b =>
    simp only [runTask, henv]
    set S := setStatus
      { logProgress initState 0 with sessionBook := b, persistedBook := b }
      .generating with hS
    have hS_log : S.statusLog = [] := rfl
    have hS_status : S.sessionBook.status = BookStatus.generating := rfl
    by_cases hc : (commitStep env S).1 = true
    · rw [if_pos hc]
      have hlog := commitStep_statusLog_of_true env S hc
      rcases storyStage_statusLog env (logProgress (commitStep env S).2 10)
          (by rw [logProgress_sessionBook, commitStep_sessionBook, hS_status])
        with ⟨n, t, hl, hcase⟩
      refine ⟨n + 1, t, ?_, hcase⟩
      rw [hl, logProgress_statusLog, hlog, hS_log, hS_status]
      simp [List.replicate_succ]
    · rw [if_neg hc]
      have hcf : (commitStep env S).1 = false := by simpa using hc
      rcases outerFailureHandler_statusLog env ((commitStep env S).2)
        "commit failed" with ⟨t, ht, hcase⟩
      refine ⟨0, t, ?_, ?_⟩
      · rw [ht, commitStep_statusLog_of_false env S hcf, hS_log]
        simp
      · rcases hcase with h | h
        · exact Or.inl (Or.inl h)
        · exact Or.inl (Or.inr (Or.inl h))

/-- The reported progress values of any run form one of three explicit
prefixes of the full schedule. -/
theorem runTask_progressLog (env : TaskEnv) :
    (runTask env).2.progressLog = [0] ∨
    (runTask env).2.progressLog = [0, 10] ∨
    ∃ story, env.storyResult = .ok story ∧
      (runTask env).2.progressLog =
        [0, 10, 30] ++
          ((generate_book_images env.imageResult story.pages).2.map
            (fun ct => imageProgressValue ct.1 ct.2)) ++ [90] := by
  cases henv : env.book with
  | none =>
    left
    simp [runTask, henv, initState, logProgress]
  | some b =>
    simp only [runTask, henv]
    set S := setStatus
      { logProgress initState 0 with sessionBook := b, persistedBook := b }
      .generating with hS
    have hS_prog : S.progressLog = [0] := rfl
    by_cases hc : (commitStep env S).1 = true
    · rw [if_pos hc]
      rcases storyStage_progressLog env (logProgress (commitStep env S).2 10)
        with hl | ⟨story, hst, hl⟩
      · right; left
        rw [hl, logProgress_progressLog, commitStep_progressLog, hS_prog]
        rfl
      · right; right
        refine ⟨story, hst, ?_⟩
        rw [hl, logProgress_progressLog, commitStep_progressLog, hS_prog]
        simp [List.append_assoc]
    · rw [if_neg hc]
      left
      rw [outerFailureHandler_progressLog, commitStep_progressLog, hS_prog]

/-- A run that never entered the save-pages stage committed no page rows
of its own. -/
theorem runTask_enteredSave_false_pages (env : TaskEnv) :
    (runTask env).2.enteredSave = false →
    (runTask env).2.persistedPages = [] := by
  cases henv : env.book with
  | none =>
    intro _
    simp [runTask, henv, initState, logProgress]
  | some b =>
    simp only [runTask, henv]
    set S := setStatus
      { logProgress initState 0 with sessionBook := b, persistedBook := b }
      .generating with hS
    have hS_sp : S.sessionPages = [] := rfl
    have hS_pp : S.persistedPages = [] := rfl
    have hpp : ((commitStep env S).2).persistedPages = [] := by
      rcases commitStep_persistedPages env S with hh | hh <;> rw [hh]
      · exact hS_pp
      · exact hS_sp
    have hsp : ((commitStep env S).2).sessionPages = [] := by
      rw [commitStep_sessionPages]; exact hS_sp
    by_cases hc : (commitStep env S).1 = true
    · rw [if_pos hc]
      exact storyStage_pre env _ (by simpa using hsp) (by simpa using hpp)
    · rw [if_neg hc]
      intro _
      rcases outerFailureHandler_persistedPages env ((commitStep env S).2)
        "commit failed" with hh | hh <;> rw [hh] <;> assumption

/-- A run whose story call terminally fails returns the FAILED result
dictionary. -/
theorem runTask_fst_of_storyError (env : TaskEnv) (e : PyExc)
    (he : env.storyResult = .error e) :
    (runTask env).1.isFailed = true := by
  cases henv : env.book with
  | none => simp [runTask, henv, TaskResult.isFailed]
  | some b =>
    simp only [runTask, henv]
    set S := setStatus
      { logProgress initState 0 with sessionBook := b, persistedBook := b }
      .generating with hS
    by_cases hc : (commitStep env S).1 = true
    · rw [if_pos hc, storyStage_fst_of_error env _ e he]
      rfl
    · rw [if_neg hc, outerFailureHandler_fst]
      rfl

/-- A run whose story call terminally fails never reaches the save-pages
stage. -/
theorem runTask_enteredSave_of_storyError (env : TaskEnv) (e : PyExc)
    (he : env.storyResult = .error e) :
    (runTask env).2.enteredSave = false := by
  cases henv : env.book with
  | none => simp [runTask, henv, initState, logProgress]
  | some b =>
    simp only [runTask, henv]
    set S := setStatus
      { logProgress initState 0 with sessionBook := b, persistedBook := b }
      .generating with hS
    have hS_es : S.enteredSave = false := rfl
    by_cases hc : (commitStep env S).1 = true
    · rw [if_pos hc, storyStage_of_error env _ e he, innerFailThenRaise_enteredSave,
        logProgress_enteredSave, commitStep_enteredSave]
      exact hS_es
    · rw [if_neg hc, outerFailureHandler_enteredSave, commitStep_enteredSave]
      exact hS_es


/-! ## Progress-value arithmetic and callback-sequence facts -/

theorem imageProgressValue_mono (t : Nat) {c₁ c₂ : Nat} (h : c₁ ≤ c₂) :
    imageProgressValue c₁ t ≤ imageProgressValue c₂ t := by
  unfold imageProgressValue
  have hdiv : c₁ * 60 / t ≤ c₂ * 60 / t :=
    Nat.div_le_div_right (Nat.mul_le_mul_right 60 h)
  omega

theorem imageProgressValue_le_90 {c t : Nat} (hc : c ≤ t) (ht : 0 < t) :
    imageProgressValue c t ≤ 90 := by
  unfold imageProgressValue
  have h1 : c * 60 / t ≤ t * 60 / t :=
    Nat.div_le_div_right (Nat.mul_le_mul_right 60 hc)
  have h2 : t * 60 / t = 60 := Nat.mul_div_cancel_left 60 ht
  omega

/-- The progress callbacks of generate_book_images carry strictly
increasing page counters in the range [i+1, i+len], all against the same
total. -/
theorem imagesGo_cbs (f : Nat → Except PyExc String) (total : Nat) :
    ∀ (pages : List StoryPage) (i : Nat),
      (∀ p ∈ (imagesGo f total pages i).2,
        i + 1 ≤ p.1 ∧ p.1 ≤ i + pages.length ∧ p.2 = total) ∧
      List.Chain' (fun a b : Nat × Nat => a.1 < b.1)
        (imagesGo f total pages i).2 := by
  intro pages
  induction pages with
  | nil =>
    intro i
    constructor
    · intro p hp; simp [imagesGo] at hp
    · simp [imagesGo]
  | cons q rest ih =>
    intro i
    simp only [imagesGo]
    cases hf : f i with
    | ok url =>
      constructor
      · intro p hp
        simp only [List.mem_cons] at hp
        rcases hp with rfl | hp
        · refine ⟨le_refl _, ?_, rfl⟩
          simp
        · rcases (ih (i + 1)).1 p hp with ⟨h1, h2, h3⟩
          refine ⟨by omega, ?_, h3⟩
          simp only [List.length_cons]
          omega
      · rw [List.chain'_cons']
        constructor
        · intro h hh
          have hmem : h ∈ (imagesGo f total rest (i + 1)).2 :=
            List.mem_of_mem_head? hh
          have := ((ih (i + 1)).1 h hmem).1
          omega
        · exact (ih (i + 1)).2
    | error e =>
      constructor
      · intro p hp
        rcases (ih (i + 1)).1 p hp with ⟨h1, h2, h3⟩
        refine ⟨by omega, ?_, h3⟩
        simp only [List.length_cons]
        omega
      · exact (ih (i + 1)).2

/-- Mapped progress values of a strictly increasing callback sequence
form a non-decreasing chain. -/
theorem chain_progress_vals (total : Nat) :
    ∀ l : List (Nat × Nat), (∀ p ∈ l, p.2 = total) →
      List.Chain' (fun a b : Nat × Nat => a.1 < b.1) l →
      List.Chain' (fun a b : Nat => a ≤ b)
        (l.map (fun ct => imageProgressValue ct.1 ct.2)) := by
  intro l
  induction l with
  | nil => intro _ _; simp
  | cons a rest ih =>
    intro hmem hchain
    rw [List.map_cons, List.chain'_cons']
    constructor
    · intro v hv
      cases rest with
      | nil => simp at hv
      | cons b rest2 =>
        simp only [List.map_cons, List.head?_cons, Option.mem_def,
          Option.some.injEq] at hv
        subst hv
        have hab : a.1 < b.1 := (List.chain'_cons.mp hchain).1
        have ha2 : a.2 = total := hmem a (by simp)
        have hb2 : b.2 = total := hmem b (by simp)
        rw [ha2, hb2]
        exact imageProgressValue_mono total (le_of_lt hab)
    · exact ih (fun p hp => hmem p (by simp [hp])) hchain.tail

/-- Every mapped progress value of an in-range callback lies in
[30, 90]. -/
theorem progress_vals_bounds (total : Nat) (l : List (Nat × Nat))
    (h : ∀ p ∈ l, 1 ≤ p.1 ∧ p.1 ≤ total ∧ p.2 = total) :
    ∀ v ∈ l.map (fun ct => imageProgressValue ct.1 ct.2),
      30 ≤ v ∧ v ≤ 90 := by
  intro v hv
  rcases List.mem_map.mp hv with ⟨p, hp, rfl⟩
  rcases h p hp with ⟨h1, h2, h3⟩
  constructor
  · exact Nat.le_add_right 30 _
  · rw [h3]
    exact imageProgressValue_le_90 h2 (by omega)

/-- Assembling the progress schedule of a full run into one
non-decreasing chain. -/
theorem chain_progress_assembled (vals : List Nat)
    (hchain : List.Chain' (fun a b : Nat => a ≤ b) vals)
    (hbound : ∀ v ∈ vals, 30 ≤ v ∧ v ≤ 90) :
    List.Chain' (fun a b : Nat => a ≤ b) ([0, 10, 30] ++ vals ++ [90]) := by
  have h90 : List.Chain' (fun a b : Nat => a ≤ b) (vals ++ [90]) := by
    refine List.Chain'.append hchain (by simp) ?_
    intro x hx y hy
    simp only [List.head?_cons, Option.mem_def, Option.some.injEq] at hy
    subst hy
    rcases List.mem_getLast?_eq_getLast hx with ⟨hne, rfl⟩
    exact (hbound _ (List.getLast_mem hne)).2
  rw [List.append_assoc]
  refine List.Chain'.append ?_ h90 ?_
  · refine List.chain'_cons.mpr ⟨by norm_num, ?_⟩
    exact List.chain'_cons.mpr ⟨by norm_num, List.chain'_singleton 30⟩
  intro x hx y hy
  have hx30 : x = 30 := by
    have := hx
    simp only [List.getLast?] at this
    simpa using this.symm
  subst hx30
  cases vals with
  | nil =>
    simp only [List.nil_append, List.head?_cons, Option.mem_def,
      Option.some.injEq] at hy
    omega
  | cons v vs =>
    simp only [List.cons_append, List.head?_cons, Option.mem_def,
      Option.some.injEq] at hy
    subst hy
    exact (hbound v (by simp)).1

/-! ## Status-chain facts -/

theorem chainPair {α : Type} {R : α → α → Prop} {a b : α} (h : R a b) :
    List.Chain' R [a, b] :=
  List.chain'_cons.mpr ⟨h, List.chain'_singleton b⟩

theorem chainTriple {α : Type} {R : α → α → Prop} {a b c : α} (h1 : R a b)
    (h2 : R b c) : List.Chain' R [a, b, c] :=
  List.chain'_cons.mpr ⟨h1, chainPair h2⟩

theorem chainQuad {α : Type} {R : α → α → Prop} {a b c d : α} (h1 : R a b)
    (h2 : R b c) (h3 : R c d) : List.Chain' R [a, b, c, d] :=
  List.chain'_cons.mpr ⟨h1, chainTriple h2 h3⟩

theorem chain_rank_gen_tail :
    ∀ (n : Nat) (t : List BookStatus), terminalTail t →
      List.Chain' (fun a c => statusRank a ≤ statusRank c)
        (BookStatus.generating :: (List.replicate n BookStatus.generating ++ t)) := by
  intro n
  induction n with
  | zero =>
    intro t ht
    rcases ht with (rfl | rfl | rfl) | rfl | rfl | rfl
    · exact List.chain'_singleton _
    · exact chainPair (by decide)
    · exact chainTriple (by decide) (by decide)
    · exact chainPair (by decide)
    · exact chainTriple (by decide) (by decide)
    · exact chainQuad (by decide) (by decide) (by decide)
  | succ m ih =>
    intro t ht
    rw [List.replicate_succ, List.cons_append]
    exact List.chain'_cons.mpr ⟨le_refl _, ih t ht⟩

theorem chain_rank_draft (n : Nat) (t : List BookStatus)
    (ht : terminalTail t) :
    List.Chain' (fun a c => statusRank a ≤ statusRank c)
      (BookStatus.draft :: (List.replicate n BookStatus.generating ++ t)) := by
  cases n with
  | zero =>
    rcases ht with (rfl | rfl | rfl) | rfl | rfl | rfl
    · exact List.chain'_singleton _
    · exact chainPair (by decide)
    · exact chainTriple (by decide) (by decide)
    · exact chainPair (by decide)
    · exact chainTriple (by decide) (by decide)
    · exact chainQuad (by decide) (by decide) (by decide)
  | succ m =>
    rw [List.replicate_succ, List.cons_append]
    exact List.chain'_cons.mpr ⟨by decide, chain_rank_gen_tail m t ht⟩

/-- A run of retryRest in which every attempt raises a caught exception
performs exactly one further call per remaining retry and propagates the
exception. -/
theorem retryRest_const_error {A : Type} (f : Nat → Except PyExc A) (e : PyExc)
    (hf : ∀ n, f n = .error e) (b : Rat) :
    ∀ (r attempt : Nat) (d sl : Rat) (c : Nat),
      (retryRest (fun _ => true) f b r attempt d sl c e).result = .error e ∧
      (retryRest (fun _ => true) f b r attempt d sl c e).calls = c + r := by
  intro r
  induction r with
  | zero => intro attempt d sl c; simp [retryRest]
  | succ n ih =>
    intro attempt d sl c
    simp only [retryRest, hf attempt, if_true]
    have := ih (attempt + 1) (d * b) (sl + d) (c + 1)
    exact ⟨this.1, by omega⟩

/-- C4 (amended): under the default configuration max_retries=3 the
wrapped function is invoked at most max_retries + 1 = 4 times in total
before the last error propagates. -/
theorem C4_retry_invocation_bound {A : Type} (catches : PyExc → Bool)
    (f : Nat → Except PyExc A) :
    (retry_on_failure 3 2 2 catches f).calls ≤ 4 := by
  unfold retry_on_failure
  cases f 0 with
  | ok a => simp
  | error e =>
    by_cases h : catches e
    · simp only [h, if_true]
      have := retryRest_calls_le catches f 2 3 1 2 0 1 e
      omega
    · simp [h]

/-- C4 (counterexample): a wrapped function that always fails with a
retried exception is invoked 4 times under max_retries=3, refuting the
claimed bound of at most 3 invocations. -/
theorem C4_counterexample :
    ¬ ((retry_on_failure 3 2 2 (fun _ => true)
        (fun _ => (.error (PyExc.generic "boom") : Except PyExc Unit))).calls ≤ 3) := by
  decide

/-- C3 (counterexample): a Content Client call whose every attempt fails
with the APICallError that generate_story raises on
openai.AuthenticationError is invoked 4 times — the decorator's
exception tuple contains Exception, so the auth failure is retried, not
raised after exactly 1 attempt. -/
theorem C3_counterexample :
    (retry_on_failure 3 2 2 ai_retry_exceptions
        (fun _ => (.error authApiCallError : Except PyExc StoryResponse))).calls = 4 ∧
    ¬ ((retry_on_failure 3 2 2 ai_retry_exceptions
        (fun _ => (.error authApiCallError : Except PyExc StoryResponse))).calls = 1) := by
  constructor
  · decide
  · decide

/-- C5: a Content Client call failing on its first two invocations and
succeeding on the third, under max_retries=3, delay=2, backoff=2.0, is
invoked exactly 3 times, returns the success, and sleeps a programmed
total of at least 6 seconds (2s + 4s) before succeeding. -/
theorem C5_retry_law {A : Type} (f : Nat → Except PyExc A) (a : A)
    (e0 e1 : PyExc) (h0 : f 0 = .error e0) (h1 : f 1 = .error e1)
    (h2 : f 2 = .ok a) :
    (retry_on_failure 3 2 2 ai_retry_exceptions f).calls = 3 ∧
    (retry_on_failure 3 2 2 ai_retry_exceptions f).result = .ok a ∧
    (6 : Rat) ≤ (retry_on_failure 3 2 2 ai_retry_exceptions f).totalSleep := by
  simp only [retry_on_failure, retryRest, h0, h1, h2, ai_retry_exceptions, if_true]
  norm_num

/-- C5 (witness): concrete two-failures-then-success run. -/
theorem C5_retry_law_witness :
    (retry_on_failure 3 2 2 ai_retry_exceptions
        (fun n => if n < 2 then (.error (.generic "rate limit") : Except PyExc Nat)
                  else .ok 7)).calls = 3 ∧
    (retry_on_failure 3 2 2 ai_retry_exceptions
        (fun n => if n < 2 then (.error (.generic "rate limit") : Except PyExc Nat)
                  else .ok 7)).result = .ok 7 ∧
    (6 : Rat) ≤ (retry_on_failure 3 2 2 ai_retry_exceptions
        (fun n => if n < 2 then (.error (.generic "rate limit") : Except PyExc Nat)
                  else .ok 7)).totalSleep :=
  C5_retry_law _ 7 (.generic "rate limit") (.generic "rate limit") rfl rfl rfl

/-- C2: generate_book_content_task is a plain synchronous def whose body
awaits the story and image coroutines, so it fails CPython's
compile-time check and no invocation of the task can ever run its body,
return a SUCCESS result, or set a book's status to Completed. -/
theorem C2_sync_task_awaits :
    pyCompileOk generate_book_content_task_decl = false ∧
    ∀ env : TaskEnv,
      invokeCeleryTask generate_book_content_task_decl runTask env = none := by
  refine ⟨by decide, fun env => ?_⟩
  simp [invokeCeleryTask, pyCompileOk, generate_book_content_task_decl, stmtIsAwait]

/-! ## Happy-path run characterisation -/

@[simp]
theorem happyEnv_book (b : BookRow) (rt : Option String)
    (story : StoryResponse) (f : Nat → Except PyExc String) :
    (happyEnv b rt story f).book = some b := rfl

@[simp]
theorem happyEnv_storyResult (b : BookRow) (rt : Option String)
    (story : StoryResponse) (f : Nat → Except PyExc String) :
    (happyEnv b rt story f).storyResult = .ok story := rfl

@[simp]
theorem happyEnv_imageResult (b : BookRow) (rt : Option String)
    (story : StoryResponse) (f : Nat → Except PyExc String) :
    (happyEnv b rt story f).imageResult = f := rfl

@[simp]
theorem happyEnv_commitOk (b : BookRow) (rt : Option String)
    (story : StoryResponse) (f : Nat → Except PyExc String) (k : Nat) :
    (happyEnv b rt story f).commitOk k = true := rfl

theorem saveAdd_sessionPages (urls : List (Option String)) (p : StoryPage)
    (i : Nat) (s : RunState) :
    (saveAdd urls p i s).sessionPages = s.sessionPages ++
      [{ page_number := p.page_number, text_content := p.text,
         image_prompt := p.image_prompt, image_url := urls.getD i none }] := rfl

/-- With every commit succeeding, the save loop returns normally and the
session holds exactly the previous rows plus one row per story page. -/
theorem saveGo_of_commitOk (env : TaskEnv) (hc : ∀ k, env.commitOk k = true)
    (urls : List (Option String)) :
    ∀ (pages : List StoryPage) (i : Nat) (s : RunState),
      ∃ s', saveGo env urls pages i s = .ok s' ∧
        s'.sessionPages = s.sessionPages ++ rowsFrom urls pages i ∧
        s'.sessionBook = s.sessionBook := by
  intro pages
  induction pages with
  | nil => intro i s; exact ⟨s, rfl, by simp [rowsFrom], rfl⟩
  | cons p rest ih =>
    intro i s
    simp only [saveGo]
    by_cases h5 : (i + 1) % 5 = 0
    · rw [if_pos h5]
      have hct : (commitStep env (saveAdd urls p i s)).1 = true := by
        rw [commitStep_fst]; exact hc _
      rw [if_pos hct]
      rcases ih (i + 1) ((commitStep env (saveAdd urls p i s)).2)
        with ⟨s', hgo, hsp, hsb⟩
      refine ⟨s', hgo, ?_, ?_⟩
      · rw [hsp, commitStep_sessionPages, saveAdd_sessionPages]
        simp [rowsFrom, List.append_assoc]
      · rw [hsb, commitStep_sessionBook, saveAdd_sessionBook]
    · rw [if_neg h5]
      rcases ih (i + 1) (saveAdd urls p i s) with ⟨s', hgo, hsp, hsb⟩
      refine ⟨s', hgo, ?_, ?_⟩
      · rw [hsp, saveAdd_sessionPages]
        simp [rowsFrom, List.append_assoc]
      · rw [hsb, saveAdd_sessionBook]

/-- With every commit succeeding, the completion step durably writes the
pending rows, the COMPLETED status and the first-image cover. -/
theorem finishStage_of_commitOk (env : TaskEnv) (story : StoryResponse)
    (urls : List (Option String)) (s : RunState)
    (hc : ∀ k, env.commitOk k = true) (hr : env.refreshOk = true) :
    (finishStage env story urls s).2.persistedPages = s.sessionPages ∧
    (finishStage env story urls s).2.persistedBook.status =
      BookStatus.completed ∧
    (finishStage env story urls s).2.persistedBook.cover_image =
      coverOf urls s.sessionBook.cover_image := by
  have hct : (commitStep env (setStatus (coverAssign urls s) .completed)).1 = true := by
    rw [commitStep_fst]; exact hc _
  simp only [finishStage]
  rw [if_pos hct, if_pos hr]
  rcases commitStep_persisted_of_true env _ hct with ⟨hb, hp⟩
  refine ⟨?_, ?_, ?_⟩
  · rw [hp, setStatus_sessionPages, coverAssign_sessionPages]
  · rw [hb, setStatus_status]
  · rw [hb, setStatus_cover, coverAssign_cover]

theorem saveStage_of_commitOk (env : TaskEnv) (story : StoryResponse)
    (urls : List (Option String)) (s : RunState)
    (hc : ∀ k, env.commitOk k = true) (hr : env.refreshOk = true)
    (hsp : s.sessionPages = []) :
    (saveStage env story urls s).2.persistedPages =
      rowsFrom urls story.pages 0 ∧
    (saveStage env story urls s).2.persistedBook.status =
      BookStatus.completed ∧
    (saveStage env story urls s).2.persistedBook.cover_image =
      coverOf urls s.sessionBook.cover_image := by
  rcases saveGo_of_commitOk env hc urls story.pages 0 { s with enteredSave := true }
    with ⟨s', hgo, hsp', hsb'⟩
  simp only [saveStage, hgo]
  have hfin := finishStage_of_commitOk env story urls s' hc hr
  refine ⟨?_, hfin.2.1, ?_⟩
  · rw [hfin.1, hsp']
    simp [hsp]
  · rw [hfin.2.2, hsb']

theorem imagesStage_of_commitOk (env : TaskEnv) (story : StoryResponse)
    (s : RunState) (hc : ∀ k, env.commitOk k = true)
    (hr : env.refreshOk = true) (hsp : s.sessionPages = []) :
    (imagesStage env story s).2.persistedPages =
      rowsFrom (generate_book_images env.imageResult story.pages).1
        story.pages 0 ∧
    (imagesStage env story s).2.persistedBook.status = BookStatus.completed ∧
    (imagesStage env story s).2.persistedBook.cover_image =
      coverOf (generate_book_images env.imageResult story.pages).1
        s.sessionBook.cover_image := by
  unfold imagesStage
  have hstage := saveStage_of_commitOk env story
    (generate_book_images env.imageResult story.pages).1
    (logProgress
      ((generate_book_images env.imageResult story.pages).2.foldl
        (fun acc ct => logProgress acc (imageProgressValue ct.1 ct.2)) s) 90)
    hc hr (by simp [hsp])
  refine ⟨hstage.1, hstage.2.1, ?_⟩
  rw [hstage.2.2]
  simp

theorem storyStage_of_commitOk (env : TaskEnv) (story : StoryResponse)
    (s : RunState) (hst : env.storyResult = .ok story)
    (hc : ∀ k, env.commitOk k = true) (hr : env.refreshOk = true)
    (hsp : s.sessionPages = []) :
    (storyStage env s).2.persistedPages =
      rowsFrom (generate_book_images env.imageResult story.pages).1
        story.pages 0 ∧
    (storyStage env s).2.persistedBook.status = BookStatus.completed ∧
    (storyStage env s).2.persistedBook.cover_image =
      coverOf (generate_book_images env.imageResult story.pages).1
        s.sessionBook.cover_image := by
  simp only [storyStage, hst]
  have hct : (commitStep env { s with sessionBook := { s.sessionBook with
      title := pyOr env.request_title story.title,
      description := story.description } }).1 = true := by
    rw [commitStep_fst]; exact hc _
  rw [if_pos hct]
  have hmain := imagesStage_of_commitOk env story
    (logProgress (commitStep env { s with sessionBook := { s.sessionBook with
      title := pyOr env.request_title story.title,
      description := story.description } }).2 30) hc hr
    (by rw [logProgress_sessionPages, commitStep_sessionPages]; simpa using hsp)
  refine ⟨hmain.1, hmain.2.1, ?_⟩
  rw [hmain.2.2, logProgress_sessionBook, commitStep_sessionBook]

/-- Characterisation of a run in which the book exists, the story call
succeeds and every commit succeeds: all page rows are durably written,
the book completes, and the cover is the first page's image URL when
truthy. -/
theorem runTask_happyEnv (b : BookRow) (rt : Option String)
    (story : StoryResponse) (f : Nat → Except PyExc String) :
    (runTask (happyEnv b rt story f)).2.persistedPages =
      rowsFrom (generate_book_images f story.pages).1 story.pages 0 ∧
    (runTask (happyEnv b rt story f)).2.persistedBook.status =
      BookStatus.completed ∧
    (runTask (happyEnv b rt story f)).2.persistedBook.cover_image =
      coverOf (generate_book_images f story.pages).1 b.cover_image := by
  have hc : ∀ k, (happyEnv b rt story f).commitOk k = true := fun _ => rfl
  simp only [runTask, happyEnv_book]
  set S := setStatus
    { logProgress initState 0 with sessionBook := b, persistedBook := b }
    .generating with hS
  have hct : (commitStep (happyEnv b rt story f) S).1 = true := by
    rw [commitStep_fst]; exact hc _
  rw [if_pos hct]
  have hmain := storyStage_of_commitOk (happyEnv b rt story f) story
    (logProgress (commitStep (happyEnv b rt story f) S).2 10)
    (happyEnv_storyResult b rt story f) hc rfl
    (by rw [logProgress_sessionPages, commitStep_sessionPages, hS]; rfl)
  have hcover : (logProgress (commitStep (happyEnv b rt story f) S).2
      10).sessionBook.cover_image = b.cover_image := by
    rw [logProgress_sessionBook, commitStep_sessionBook, hS]
    rfl
  rw [happyEnv_imageResult] at hmain
  exact ⟨hmain.1, hmain.2.1, by rw [hmain.2.2, hcover]⟩

/-- Page numbers of the rows built by the save loop are exactly the
story pages' page_number fields. -/
theorem rowsFrom_map_page_number (urls : List (Option String)) :
    ∀ (pages : List StoryPage) (i : Nat),
      (rowsFrom urls pages i).map PageRow.page_number =
        pages.map StoryPage.page_number := by
  intro pages
  induction pages with
  | nil => intro i; rfl
  | cons p rest ih =>
    intro i
    simp only [rowsFrom, List.map_cons, ih]

/-- When the model's raw pages omit page_number, the parser numbers them
i + 1 in order. -/
theorem parsePagesFrom_default_numbers :
    ∀ (raws : List RawPage) (i : Nat),
      (∀ r ∈ raws, r.page_number = none) →
      (parsePagesFrom raws i).map StoryPage.page_number =
        List.range' (i + 1) raws.length := by
  intro raws
  induction raws with
  | nil => intro i _; rfl
  | cons r rest ih =>
    intro i hall
    have hr : r.page_number = none := hall r (by simp)
    simp only [parsePagesFrom, List.map_cons, hr, Option.getD_none,
      List.length_cons, List.range'_succ]
    rw [ih (i + 1) (fun q hq => hall q (by simp [hq]))]

/-- A list of length five is literally five elements. -/
theorem list_length_five {α : Type} {l : List α} (h : l.length = 5) :
    ∃ a b c d e, l = [a, b, c, d, e] := by
  match l, h with
  | [a, b, c, d, e], _ => exact ⟨a, b, c, d, e, rfl⟩

/-- C1 (counterexample): a run whose final COMPLETED commit fails ends
with durable status Failed while the failure handlers' commit has
persisted all 4 of the run's page rows — refuting the claim that a
Failed run persists zero pages. -/
theorem C1_counterexample :
    (runTask envSaveFail).1.isFailed = true ∧
    (runTask envSaveFail).2.persistedBook.status = BookStatus.failed ∧
    (runTask envSaveFail).2.persistedPages.length = 4 := by
  refine ⟨by decide, by decide, by decide⟩

/-- C1 (amended): a run that ends Failed without having entered the
save-pages stage (story-stage or image-stage failure) persisted zero
page rows; only a failure inside the save-pages stage can leave
committed pages behind. -/
theorem C1_failed_before_save_zero_pages (env : TaskEnv)
    (_hfail : (runTask env).1.isFailed = true)
    (hns : (runTask env).2.enteredSave = false) :
    (runTask env).2.persistedPages = [] :=
  runTask_enteredSave_false_pages env hns

/-- C1 (witness): the story-failure run ends Failed before the save
stage with zero persisted pages. -/
theorem C1_failed_before_save_zero_pages_witness :
    (runTask envStoryFail).1.isFailed = true ∧
    (runTask envStoryFail).2.enteredSave = false ∧
    (runTask envStoryFail).2.persistedPages = [] :=
  ⟨by decide, by decide,
    C1_failed_before_save_zero_pages envStoryFail (by decide) (by decide)⟩

/-- C3 (amended): an auth failure is re-raised as APICallError and
retried like any other exception because the decorator's tuple contains
Exception; the call raises after max_retries + 1 = 4 attempts, and a
story-generation auth failure still makes the job return FAILED with
zero pages persisted. -/
theorem C3_auth_retried_job_fails :
    (∀ f : Nat → Except PyExc StoryResponse,
      (∀ n, f n = .error authApiCallError) →
      (retry_on_failure 3 2 2 ai_retry_exceptions f).calls = 4 ∧
      (retry_on_failure 3 2 2 ai_retry_exceptions f).result =
        .error authApiCallError) ∧
    (∀ env : TaskEnv, env.storyResult = .error authApiCallError →
      (runTask env).1.isFailed = true ∧
      (runTask env).2.persistedPages = []) := by
  constructor
  · intro f hf
    have h := retryRest_const_error f authApiCallError hf 2 3 1 2 0 1
    constructor
    · simp only [retry_on_failure, hf 0, ai_retry_exceptions, if_true]
      show (retryRest (fun _ => true) f 2 3 1 2 0 1 authApiCallError).calls = 4
      have h2 := h.2
      omega
    · simp only [retry_on_failure, hf 0, ai_retry_exceptions, if_true]
      show (retryRest (fun _ => true) f 2 3 1 2 0 1 authApiCallError).result =
        .error authApiCallError
      exact h.1
  · intro env he
    exact ⟨runTask_fst_of_storyError env _ he,
      runTask_enteredSave_false_pages env
        (runTask_enteredSave_of_storyError env _ he)⟩

/-- C3 (witness): the constant auth-failing call and the concrete
story-failure run. -/
theorem C3_auth_retried_job_fails_witness :
    ((retry_on_failure 3 2 2 ai_retry_exceptions
        (fun _ => (.error authApiCallError : Except PyExc StoryResponse))).calls = 4 ∧
      (retry_on_failure 3 2 2 ai_retry_exceptions
        (fun _ => (.error authApiCallError : Except PyExc StoryResponse))).result =
        .error authApiCallError) ∧
    ((runTask envStoryFail).1.isFailed = true ∧
      (runTask envStoryFail).2.persistedPages = []) :=
  ⟨C3_auth_retried_job_fails.1 _ (fun _ => rfl),
   C3_auth_retried_job_fails.2 envStoryFail rfl⟩

/-- C9 (counterexample): starting the generation task on a book whose
status is already Completed immediately commits Generating, a regression
of the status state machine; the claim that status never regresses is
false. -/
theorem C9_counterexample :
    (runTask envRegression).2.statusLog =
      [BookStatus.generating, BookStatus.generating, BookStatus.completed] ∧
    ¬ List.Chain' (fun a b => statusLe a b = true)
      (BookStatus.completed :: (runTask envRegression).2.statusLog) := by
  have hlog : (runTask envRegression).2.statusLog =
      [BookStatus.generating, BookStatus.generating, BookStatus.completed] := by
    decide
  refine ⟨hlog, ?_⟩
  rw [hlog]
  intro hch
  have : statusLe BookStatus.completed BookStatus.generating = true :=
    (List.chain'_cons.mp hch).1
  cases this

/-- C9 (amended): the generation task sets status Generating
unconditionally, so the state machine is respected only for runs started
on a Draft book, and then only up to the pipeline-stage order: the
durable status never steps back to an earlier stage of
Draft→Generating→{Completed,Failed}, but the two terminal states are not
one-way between themselves — when db.refresh raises after the COMPLETED
commit, the handlers commit FAILED on top of the committed COMPLETED, as
the envRefreshFail trace shows.  Page-image regeneration never writes
the book row and cancellation touches no book at all, so neither changes
any status. -/
theorem C9_status_machine :
    (∀ (env : TaskEnv) (b : BookRow), env.book = some b →
      b.status = BookStatus.draft →
      List.Chain' (fun a c => statusRank a ≤ statusRank c)
        (b.status :: (runTask env).2.statusLog)) ∧
    (runTask envRefreshFail).2.statusLog =
      [BookStatus.generating, BookStatus.generating, BookStatus.completed,
       BookStatus.failed, BookStatus.failed] ∧
    (∀ renv : RegenEnv, (regenerate_page_image_task renv).2.1 = renv.book) ∧
    (∀ (tid : String) (bk : Option BookRow), (cancel_task tid bk).2 = bk) := by
  refine ⟨?_, by decide, ?_, ?_⟩
  · intro env b hb hdraft
    rcases runTask_statusLog env with ⟨n, t, hlog, hcase⟩
    rw [hlog, hdraft]
    exact chain_rank_draft n t hcase
  · intro renv
    rcases renv with ⟨book, page, ir⟩
    cases book <;> cases page <;> cases ir <;> rfl
  · intro tid bk
    rfl

/-- C9 (witness): the draft-start story-failure run yields a
stage-monotone status chain, and regeneration and cancellation leave the
book untouched. -/
theorem C9_status_machine_witness :
    List.Chain' (fun a c => statusRank a ≤ statusRank c)
      (BookStatus.draft :: (runTask envStoryFail).2.statusLog) ∧
    (regenerate_page_image_task
      ⟨some draftBook, none, .error (.generic "x")⟩).2.1 = some draftBook ∧
    (cancel_task "tid" (some draftBook)).2 = some draftBook :=
  ⟨C9_status_machine.1 envStoryFail draftBook rfl rfl,
   C9_status_machine.2.2.1 ⟨some draftBook, none, .error (.generic "x")⟩,
   C9_status_machine.2.2.2 "tid" (some draftBook)⟩

/-- C6: in a run with page_count = 5 where image generation terminally
fails only for page 3 (index 2) and everything else succeeds, exactly 5
page rows are persisted, the persisted page 3 has image_url null, all
other persisted pages have non-null image_url, and the run reaches the
Completed terminal outcome. -/
theorem C6_degraded_run (b : BookRow) (rt : Option String)
    (title desc : String) (pages : List StoryPage) (hlen : pages.length = 5)
    (u : Nat → String) (e : PyExc) :
    (runTask (happyEnv b rt ⟨title, desc, pages⟩
      (degradedImages u e))).2.persistedPages.length = 5 ∧
    (runTask (happyEnv b rt ⟨title, desc, pages⟩
      (degradedImages u e))).2.persistedPages.map PageRow.image_url =
      [some (u 0), some (u 1), none, some (u 3), some (u 4)] ∧
    (runTask (happyEnv b rt ⟨title, desc, pages⟩
      (degradedImages u e))).2.persistedBook.status = BookStatus.completed := by
  obtain ⟨p1, p2, p3, p4, p5, rfl⟩ := list_length_five hlen
  have h := runTask_happyEnv b rt ⟨title, desc, [p1, p2, p3, p4, p5]⟩
    (degradedImages u e)
  refine ⟨?_, ?_, h.2.1⟩
  · rw [h.1]
    simp [generate_book_images, imagesGo, rowsFrom, degradedImages]
  · rw [h.1]
    simp [generate_book_images, imagesGo, rowsFrom, degradedImages, List.getD]

/-- C6 (witness): a concrete 5-page run whose third image fails. -/
theorem C6_degraded_run_witness :
    (runTask (happyEnv draftBook none ⟨"标题", "简介", mkPages 5⟩
      (degradedImages (fun _ => "http://img/u.png")
        (.generic "img")))).2.persistedPages.length = 5 ∧
    (runTask (happyEnv draftBook none ⟨"标题", "简介", mkPages 5⟩
      (degradedImages (fun _ => "http://img/u.png")
        (.generic "img")))).2.persistedPages.map PageRow.image_url =
      [some "http://img/u.png", some "http://img/u.png", none,
       some "http://img/u.png", some "http://img/u.png"] ∧
    (runTask (happyEnv draftBook none ⟨"标题", "简介", mkPages 5⟩
      (degradedImages (fun _ => "http://img/u.png")
        (.generic "img")))).2.persistedBook.status = BookStatus.completed :=
  C6_degraded_run draftBook none "标题" "简介" (mkPages 5) (by decide)
    (fun _ => "http://img/u.png") (.generic "img")

/-- C7 (counterexample): in a completed run where page 1's image failed
and page 2's image succeeded, the code leaves cover_image null instead
of using the first successful URL — refuting the claimed
first-successful-URL rule. -/
theorem C7_counterexample :
    (runTask envCoverMiss).2.persistedBook.status = BookStatus.completed ∧
    (runTask envCoverMiss).2.persistedPages.map PageRow.image_url =
      [none, some "http://img/2.png"] ∧
    (runTask envCoverMiss).2.persistedBook.cover_image = none := by
  refine ⟨by decide, by decide, by decide⟩

/-- C7 (amended): on a successful run the cover is set to image_urls[0]
only when the FIRST page's image succeeded with a truthy URL; otherwise
the cover keeps its previous value (null for a fresh book), even when a
later page's image succeeded. -/
theorem C7_cover_first_page_only (b : BookRow) (rt : Option String)
    (story : StoryResponse) (f : Nat → Except PyExc String) :
    (runTask (happyEnv b rt story f)).2.persistedBook.cover_image =
      coverOf (generate_book_images f story.pages).1 b.cover_image :=
  (runTask_happyEnv b rt story f).2.2

/-- C8 (counterexample): the parser takes page_number values straight
from the model's JSON, so a response numbering both pages 7 yields a
Completed book whose persisted page numbers are [7, 7] — not a
contiguous duplicate-free range 1..page_count. -/
theorem C8_counterexample :
    (runTask envDupNumbers).2.persistedBook.status = BookStatus.completed ∧
    (runTask envDupNumbers).2.persistedPages.map PageRow.page_number =
      [7, 7] ∧
    ¬ pagesDenseOneTo [7, 7] := by
  refine ⟨by decide, by decide, ?_⟩
  intro h
  have h1 : (1 : Nat) ∈ [7, 7] := h.mem_iff.mpr (by decide)
  simp at h1

/-- C8 (amended): persisted page numbers equal the generated story's
page_number fields; when the model's response omits page_number (so the
parser's index + 1 defaults apply), a completed run persists exactly the
contiguous range 1..page_count with no duplicates. -/
theorem C8_default_numbers_dense (b : BookRow) (rt : Option String)
    (title desc : String) (raws : List RawPage)
    (hall : ∀ r ∈ raws, r.page_number = none)
    (f : Nat → Except PyExc String) :
    (runTask (happyEnv b rt (storyFromRaws title desc raws)
      f)).2.persistedPages.map PageRow.page_number =
      List.range' 1 raws.length ∧
    pagesDenseOneTo
      ((runTask (happyEnv b rt (storyFromRaws title desc raws)
        f)).2.persistedPages.map PageRow.page_number) := by
  have h := runTask_happyEnv b rt (storyFromRaws title desc raws) f
  have hmap := rowsFrom_map_page_number
    (generate_book_images f (storyFromRaws title desc raws).pages).1
    (storyFromRaws title desc raws).pages 0
  have hnum : (parsePages raws).map StoryPage.page_number =
      List.range' 1 raws.length :=
    parsePagesFrom_default_numbers raws 0 hall
  have hfull : (runTask (happyEnv b rt (storyFromRaws title desc raws)
      f)).2.persistedPages.map PageRow.page_number =
      List.range' 1 raws.length := by
    rw [h.1, hmap]
    exact hnum
  refine ⟨hfull, ?_⟩
  rw [hfull]
  unfold pagesDenseOneTo
  rw [List.length_range']

/-- C8 (witness): three raw pages without page_number fields give
persisted numbers [1, 2, 3]. -/
theorem C8_default_numbers_dense_witness :
    (runTask (happyEnv draftBook none
      (storyFromRaws "标题" "简介" [rawPageDefault, rawPageDefault, rawPageDefault])
      (fun _ => .ok "http://img/u.png"))).2.persistedPages.map
        PageRow.page_number = List.range' 1 3 ∧
    pagesDenseOneTo
      ((runTask (happyEnv draftBook none
        (storyFromRaws "标题" "简介" [rawPageDefault, rawPageDefault, rawPageDefault])
        (fun _ => .ok "http://img/u.png"))).2.persistedPages.map
          PageRow.page_number) :=
  C8_default_numbers_dense draftBook none "标题" "简介"
    [rawPageDefault, rawPageDefault, rawPageDefault] (by decide)
    (fun _ => .ok "http://img/u.png")

/-- C10: in every run the sequence of progress values reported through
update_state (0, 10, 30, the per-image values 30 + current*60/total,
then 90) is non-decreasing. -/
theorem C10_progress_monotone (env : TaskEnv) :
    List.Chain' (fun a b : Nat => a ≤ b) (runTask env).2.progressLog := by
  rcases runTask_progressLog env with h | h | ⟨story, hst, h⟩ <;> rw [h]
  · exact List.chain'_singleton 0
  · exact List.chain'_cons.mpr ⟨by norm_num, List.chain'_singleton 10⟩
  · have hcbs := imagesGo_cbs env.imageResult story.pages.length story.pages 0
    refine chain_progress_assembled _ ?_ ?_
    · exact chain_progress_vals story.pages.length _
        (fun p hp => (hcbs.1 p hp).2.2) hcbs.2
    · refine progress_vals_bounds story.pages.length _ ?_
      intro p hp
      rcases hcbs.1 p hp with ⟨h1, h2, h3⟩
      exact ⟨by omega, by omega, h3⟩

end KidsBook
